import Mathlib

set_option maxHeartbeats 1000000
set_option maxRecDepth 8192

namespace DNSCheck

/-!
Shallow embedding of the DNS checker's query engine (`DNSQueryEngine`) and
error-detection engine (`DNSErrorDetector`).  JavaScript strings are modelled
as Lean `String`s (lists of characters; the inputs involved are ASCII, where
JS UTF-16 semantics and Lean scalar-value semantics agree).  Wall-clock
timestamps carried in results purely for display are omitted; `Date.now()`
where it matters (the cache) is an explicit `now : Nat` parameter.
-/

/-- JS character class `[a-zA-Z0-9]` (ASCII letters and digits). -/
def isAlnum (c : Char) : Bool := c.isAlpha || c.isDigit

/-- JS `String.prototype.split` with a one-character separator, on the
character list of the string: keeps empty segments, and splitting the empty
string yields `[[]]` (JS `"".split(sep)` is `[""]`). -/
def splitOnChar (sep : Char) : List Char → List (List Char)
  | [] => [[]]
  | c :: rest =>
    let r := splitOnChar sep rest
    if c = sep then [] :: r
    else
      match r with
      | [] => [[c]]
      | h :: t => (c :: h) :: t

/-- JS `String.prototype.includes`: `needle` occurs as a contiguous run
somewhere in `hay`. -/
def listIncludes (needle : List Char) : List Char → Bool
  | [] => needle.isEmpty
  | c :: rest => needle.isPrefixOf (c :: rest) || listIncludes needle rest

/-- `s.includes(sub)` on strings. -/
def strIncludes (s sub : String) : Bool := listIncludes sub.data s.data

/-- ASCII case folding of one character (JS `toLowerCase` restricted to the
ASCII range actually exercised by the checker). -/
def charLower (c : Char) : Char :=
  if 'A' ≤ c ∧ c ≤ 'Z' then Char.ofNat (c.toNat + 32) else c

/-- JS `String.prototype.toLowerCase` (ASCII). -/
def jsToLower (s : String) : String := ⟨s.data.map charLower⟩

/-- The whitespace characters relevant to JS `trim`/`parseInt` on the ASCII
inputs involved. -/
def isJsWhitespace (c : Char) : Bool :=
  c = ' ' || c = '\t' || c = '\n' || c = '\r'

/-- JS `String.prototype.trim` on a character list. -/
def trimList (cs : List Char) : List Char :=
  ((cs.dropWhile isJsWhitespace).reverse.dropWhile isJsWhitespace).reverse

/-- JS `String.prototype.trim`. -/
def jsTrim (s : String) : String := ⟨trimList s.data⟩

/-! ### Domain validation (`DNSQueryEngine.validateDomain`) -/

/-- `domain.replace(/\.$/, '')`: removes one trailing dot if present. -/
def stripTrailingDot (s : String) : String :=
  if s.data.getLast? = some '.' then ⟨s.data.dropLast⟩ else s

/-- One label of the validation regex
`[a-zA-Z0-9](?:[a-zA-Z0-9-]{0,61}[a-zA-Z0-9])?`: 1 to 63 characters, every
character alphanumeric or a hyphen, and the first and last characters
alphanumeric. -/
def labelMatch (l : List Char) : Bool :=
  match l.head?, l.getLast? with
  | some c, some d =>
    isAlnum c && isAlnum d && (l.length ≤ 63) &&
      l.all (fun x => isAlnum x || x = '-')
  | _, _ => false

/-- The test of `this.domainRegex` on the cleaned domain.  The regex is
`^(label\.)*label$`; since a label contains no dot, the full string matches
exactly when every dot-separated segment matches the label pattern (and the
empty string, whose only segment is empty, does not match). -/
def domainRegexTest (s : String) : Bool :=
  (splitOnChar '.' s.data).all labelMatch

/-- `DNSQueryEngine.validateDomain`.  The JS `!domain` guard rejects the
empty string (the `typeof` check is vacuous here: inputs are strings). -/
def validateDomain (domain : String) : Bool :=
  if domain = "" then false
  else if (stripTrailingDot domain).data.length = 0 ∨
      (stripTrailingDot domain).data.length > 253 then false
  else if ∃ l ∈ splitOnChar '.' (stripTrailingDot domain).data,
      l.length = 0 ∨ l.length > 63 then false
  else domainRegexTest (stripTrailingDot domain)

/-- C4: `validateDomain` returns false for the empty string, for inputs whose
length after stripping one trailing dot exceeds 253, for inputs with an empty
or over-63-character dot-separated label, and for inputs with a label that
starts or ends with a hyphen; and on the three concrete examples it returns
true, false, false respectively. -/
theorem c4_validateDomain_spec :
    (∀ s : String,
      (s = "" ∨ (stripTrailingDot s).data.length > 253 ∨
        (∃ l ∈ splitOnChar '.' (stripTrailingDot s).data, l.length = 0 ∨ l.length > 63) ∨
        (∃ l ∈ splitOnChar '.' (stripTrailingDot s).data,
          l.head? = some '-' ∨ l.getLast? = some '-')) →
      validateDomain s = false) ∧
    validateDomain "example.com" = true ∧
    validateDomain "a..b" = false ∧
    validateDomain "-bad.com" = false := by
  refine ⟨?_, by decide, by decide, by decide⟩
  intro s h
  unfold validateDomain
  split
  · rfl
  · split
    · rfl
    · split
      · rfl
      · rename_i hne hlen hlab
        -- all early rejections failed; the remaining disjuncts force the regex to fail
        rcases h with h | h | h | h
        · exact absurd h hne
        · exact absurd (Or.inr h) hlen
        · exact absurd h hlab
        · obtain ⟨l, hl, hc⟩ := h
          have hdash : isAlnum '-' = false := by decide
          have hfalse : labelMatch l = false := by
            rcases hc with hc | hc
            · cases l with
              | nil => simp at hc
              | cons a t =>
                have ha : a = '-' := by simpa using hc
                subst ha
                rcases hg : (('-' :: t).getLast?) with _ | d
                · simp at hg
                · simp [labelMatch, hg, hdash]
            · cases l with
              | nil => simp at hc
              | cons a t =>
                simp [labelMatch, hc, hdash]
          unfold domainRegexTest
          have hnotall :
              ¬((splitOnChar '.' (stripTrailingDot s).data).all labelMatch = true) := by
            intro hall
            have := List.all_eq_true.mp hall l hl
            rw [hfalse] at this
            exact Bool.false_ne_true this
          exact Bool.eq_false_iff.mpr hnotall

/-! ### Data model -/

/-- A DNS record as parsed from a DoH answer: `{name, type, ttl, data}`.
The source's `type` field is named `rtype` here. -/
structure DNSRecord where
  name : String
  rtype : String
  ttl : Nat
  data : String
deriving DecidableEq, Repr

/-- One `(domain, recordType)` query's result.  The display-only `timestamp`
string and the `authority`/`additional` sections (carried opaquely and never
inspected by any function a claim mentions) are omitted. -/
structure QueryResult where
  domain : String
  recordType : String
  records : List DNSRecord
  error : Option String := none
  originalError : Option String := none
  source : String
  failedProviders : Option (List String) := none
  retryable : Option Bool := none
deriving DecidableEq, Repr

/-- A JS object mapping record-type names to query results, in insertion
order (keys are unique in every object the engine builds). -/
abbrev RecordSet := List (String × QueryResult)

/-! ### JS `Map` operations (insertion-ordered, unique keys) -/

/-- `Map.get`. -/
def mapGet {α : Type} (m : List (String × α)) (k : String) : Option α :=
  (m.find? (fun p => p.1 == k)).map (fun p => p.2)

/-- `Map.set`: updates in place (keeping the entry's position) when the key
exists, otherwise appends. -/
def mapSet {α : Type} (m : List (String × α)) (k : String) (v : α) :
    List (String × α) :=
  if m.any (fun p => p.1 == k) then
    m.map (fun p => if p.1 == k then (k, v) else p)
  else m ++ [(k, v)]

/-- `Map.delete` (keys are unique, so filtering all matches is the same). -/
def mapDelete {α : Type} (m : List (String × α)) (k : String) :
    List (String × α) :=
  m.filter (fun p => !(p.1 == k))

/-! ### Cache Store (`getFromCache` / `setCache` / `calculateCacheTTL`) -/

/-- One cache slot: `{data, expiresAt, cachedAt}`. -/
structure CacheEntry where
  data : RecordSet
  expiresAt : Nat
  cachedAt : Nat
deriving DecidableEq, Repr

/-- `this.cache`, a JS `Map` in insertion order. -/
abbrev Cache := List (String × CacheEntry)

/-- `this.defaultCacheTTL` (5 minutes, in ms). -/
def defaultCacheTTL : Nat := 300000

/-- `this.maxCacheSize`. -/
def maxCacheSize : Nat := 50

/-- `DNSQueryEngine.calculateCacheTTL`: starts from the 300000 ms default and
takes the minimum with every record's `ttl * 1000` (a JS-falsy `ttl`, i.e.
0, is skipped), then clamps to [30000, 600000] ms. -/
def calculateCacheTTL (data : RecordSet) : Nat :=
  let minTTL := data.foldl
    (fun acc p => p.2.records.foldl
      (fun a r => if r.ttl ≠ 0 then min a (r.ttl * 1000) else a) acc)
    defaultCacheTTL
  max 30000 (min 600000 minTTL)

/-- `DNSQueryEngine.getFromCache`: a missing key yields `none`; an entry past
`expiresAt` is deleted lazily and yields `none`. -/
def getFromCache (now : Nat) (key : String) (c : Cache) :
    Option RecordSet × Cache :=
  match mapGet c key with
  | none => (none, c)
  | some entry =>
    if now > entry.expiresAt then (none, mapDelete c key)
    else (some entry.data, c)

/-- `DNSQueryEngine.setCache`: TTL is the argument if JS-truthy, otherwise
computed; at `maxCacheSize` the first (earliest-inserted) key is deleted
before the insert. -/
def setCache (now : Nat) (key : String) (data : RecordSet) (ttl : Option Nat)
    (c : Cache) : Cache :=
  let cacheTTL := match ttl with
    | some t => if t = 0 then calculateCacheTTL data else t
    | none => calculateCacheTTL data
  let c1 := if maxCacheSize ≤ c.length then
      match c.head? with
      | some p => mapDelete c p.1
      | none => c
    else c
  mapSet c1 key ⟨data, now + cacheTTL, now⟩

/-- Modelled from the claim's words, for comparison with the code: the
minimum per-record TTL across the RecordSet in ms (`none` when no record
carries a TTL). -/
def minRecordTTLms (data : RecordSet) : Option Nat :=
  data.foldl
    (fun acc p => p.2.records.foldl
      (fun a r => if r.ttl ≠ 0 then
          some (match a with | none => r.ttl * 1000 | some m => min m (r.ttl * 1000))
        else a) acc)
    none

/-- Modelled from the claim's words: the minimum per-record TTL (300 s
default when none is found) clamped to [30 s, 600 s]. -/
def claimCacheTTL (data : RecordSet) : Nat :=
  max 30000 (min 600000 ((minRecordTTLms data).getD 300000))

/-! ### Map lemmas -/

theorem find?_replace_self {α : Type} (m : List (String × α)) (k : String) (v : α)
    (hany : m.any (fun p => p.1 == k) = true) :
    (m.map (fun p => if p.1 == k then (k, v) else p)).find? (fun p => p.1 == k) =
      some (k, v) := by
  induction m with
  | nil => simp at hany
  | cons p rest ih =>
    by_cases hp : (p.1 == k) = true
    · rw [List.map_cons, if_pos hp]
      exact List.find?_cons_of_pos _ (by simp)
    · rw [List.map_cons, if_neg hp]
      rw [@List.find?_cons_of_neg _ (fun q => q.1 == k) p _ hp]
      refine ih ?_
      rcases List.any_eq_true.mp hany with ⟨x, hx, hpx⟩
      rcases List.mem_cons.mp hx with hx | hx
      · subst hx; exact absurd hpx hp
      · exact List.any_eq_true.mpr ⟨x, hx, hpx⟩

theorem find?_replace_ne {α : Type} (m : List (String × α)) (k k' : String)
    (v : α) (hkk : (k == k') = false) :
    (m.map (fun p => if p.1 == k then (k, v) else p)).find? (fun p => p.1 == k') =
      m.find? (fun p => p.1 == k') := by
  induction m with
  | nil => rfl
  | cons p rest ih =>
    by_cases hp : (p.1 == k) = true
    · have hpk : p.1 = k := by simpa using hp
      rw [List.map_cons, if_pos hp]
      rw [@List.find?_cons_of_neg _ (fun q => q.1 == k') (k, v) _ (by simp [hkk]),
        @List.find?_cons_of_neg _ (fun q => q.1 == k') p _ (by simp [hpk, hkk])]
      exact ih
    · rw [List.map_cons, if_neg hp]
      by_cases hq : (p.1 == k') = true
      · rw [@List.find?_cons_of_pos _ (fun q => q.1 == k') p _ hq,
          @List.find?_cons_of_pos _ (fun q => q.1 == k') p _ hq]
      · rw [@List.find?_cons_of_neg _ (fun q => q.1 == k') p _ hq,
          @List.find?_cons_of_neg _ (fun q => q.1 == k') p _ hq]
        exact ih

theorem mapGet_mapSet_self {α : Type} (m : List (String × α)) (k : String) (v : α) :
    mapGet (mapSet m k v) k = some v := by
  unfold mapSet
  split
  · rename_i hany
    unfold mapGet
    rw [find?_replace_self m k v hany]
    rfl
  · rename_i hany
    unfold mapGet
    rw [List.find?_append]
    have hnone : m.find? (fun p => p.1 == k) = none :=
      List.find?_eq_none.mpr (fun x hx hpx => hany (List.any_eq_true.mpr ⟨x, hx, hpx⟩))
    rw [hnone]
    simp [List.find?]

theorem mapGet_mapDelete_self {α : Type} (m : List (String × α)) (k : String) :
    mapGet (mapDelete m k) k = none := by
  unfold mapGet mapDelete
  refine Option.map_eq_none.mpr (List.find?_eq_none.mpr ?_)
  intro x hx
  have := List.of_mem_filter hx
  simpa using this

theorem mapGet_mapSet_ne {α : Type} (m : List (String × α)) (k k' : String)
    (v : α) (hne : k ≠ k') : mapGet (mapSet m k v) k' = mapGet m k' := by
  have hkk : (k == k') = false := by simpa using hne
  unfold mapSet
  split
  · unfold mapGet
    rw [find?_replace_ne m k k' v hkk]
  · unfold mapGet
    rw [List.find?_append]
    have hsingle : ([((k, v) : String × α)]).find? (fun p => p.1 == k') = none := by
      simp [List.find?, hkk]
    rw [hsingle]
    simp

theorem mapSet_length_le {α : Type} (m : List (String × α)) (k : String) (v : α) :
    (mapSet m k v).length ≤ m.length + 1 := by
  unfold mapSet
  split
  · simp
  · simp

/-- C5 counterexample: a RecordSet whose minimum per-record TTL is 3600 s.
The claim's formula clamps 3600000 ms to 600000 ms, but the code folds the
300000 ms default into the minimum and computes 300000 ms. -/
theorem c5_ttl_counterexample :
    calculateCacheTTL
        [("A", { domain := "example.com", recordType := "A",
                 records := [⟨"example.com", "A", 3600, "93.184.216.34"⟩],
                 source := "cloudflare" })] = 300000 ∧
      claimCacheTTL
        [("A", { domain := "example.com", recordType := "A",
                 records := [⟨"example.com", "A", 3600, "93.184.216.34"⟩],
                 source := "cloudflare" })] = 600000 := by
  constructor
  · rfl
  · rfl

/-- C5 (amended): `setCache` immediately followed by `getFromCache` on the
same key always hits and returns the stored RecordSet; the computed entry TTL
is the minimum of the 300 s default and the per-record TTLs, clamped to
[30 s, 600 s] — hence always in [30 s, 300 s] and strictly positive, so the
entry cannot be expired at read time. -/
theorem c5_cache_roundtrip :
    (∀ v : RecordSet, 30000 ≤ calculateCacheTTL v ∧ calculateCacheTTL v ≤ 300000) ∧
    (∀ (now : Nat) (k : String) (v : RecordSet) (c : Cache),
      (getFromCache now k (setCache now k v none c)).1 = some v) := by
  constructor
  · intro v
    constructor
    · exact Nat.le_max_left _ _
    · unfold calculateCacheTTL
      have hmin : ∀ (l : RecordSet) (start : Nat),
          (l.foldl (fun acc p => p.2.records.foldl
            (fun a r => if r.ttl ≠ 0 then min a (r.ttl * 1000) else a) acc) start) ≤ start := by
        intro l
        induction l with
        | nil => intro start; simp
        | cons p rest ih =>
          intro start
          have hrec : ∀ (rs : List DNSRecord) (a : Nat),
              (rs.foldl (fun a r => if r.ttl ≠ 0 then min a (r.ttl * 1000) else a) a) ≤ a := by
            intro rs
            induction rs with
            | nil => intro a; simp
            | cons r rrest ihr =>
              intro a
              simp only [List.foldl_cons]
              split
              · exact le_trans (ihr _) (Nat.min_le_left _ _)
              · exact ihr a
          simp only [List.foldl_cons]
          exact le_trans (ih _) (hrec _ _)
      have h := hmin v defaultCacheTTL
      calc max 30000 (min 600000 (v.foldl _ defaultCacheTTL))
          ≤ max 30000 (v.foldl _ defaultCacheTTL) := by
            exact max_le_max (le_refl _) (Nat.min_le_right _ _)
        _ ≤ max 30000 defaultCacheTTL := max_le_max (le_refl _) h
        _ = 300000 := by decide
  · intro now k v c
    unfold setCache getFromCache
    rw [mapGet_mapSet_self]
    simp

/-- C6: the cache never exceeds 50 entries; a `setCache` at capacity evicts
the earliest-inserted entry still present, so a later `getFromCache` on that
evicted key (when distinct from the inserted key) is absent; concretely,
after 50 distinct inserts, inserting a 51st distinct key evicts the first. -/
theorem c6_cache_capacity :
    (∀ (now : Nat) (k : String) (v : RecordSet) (c : Cache),
      c.length ≤ 50 → (setCache now k v none c).length ≤ 50) ∧
    (∀ (now now2 : Nat) (k : String) (v : RecordSet) (c : Cache) (k0 : String)
        (e0 : CacheEntry), 50 ≤ c.length → c.head? = some (k0, e0) → k ≠ k0 →
      (getFromCache now2 k0 (setCache now k v none c)).1 = none) ∧
    (getFromCache 5 "0"
      (setCache 5 "fresh" [] none
        ((List.range 50).map (fun i => (Nat.repr i, ⟨[], 1000000, 0⟩))))).1 = none := by
  refine ⟨?_, ?_, ?_⟩
  · intro now k v c hc
    have hgoal : setCache now k v none c =
        mapSet (if maxCacheSize ≤ c.length then
            match c.head? with
            | some p => mapDelete c p.1
            | none => c
          else c) k ⟨v, now + calculateCacheTTL v, now⟩ := rfl
    rw [hgoal]
    split
    · rename_i hcap
      match hh : c.head? with
      | none =>
        rw [List.head?_eq_none_iff] at hh
        subst hh
        simp [maxCacheSize] at hcap
      | some p =>
        simp only [hh]
        have hdel : (mapDelete c p.1).length + 1 ≤ c.length := by
          match c, hh with
          | q :: rest, hh =>
            have hq : q = p := by simpa using hh
            subst hq
            have hlen : (mapDelete (q :: rest) q.1).length ≤ rest.length := by
              have hhead : (!(q.1 == q.1)) = false := by simp
              simp only [mapDelete, List.filter, hhead]
              exact List.length_filter_le _ _
            simpa using Nat.add_le_add_right hlen 1
        have := mapSet_length_le (mapDelete c p.1) k ⟨v, now + calculateCacheTTL v, now⟩
        omega
    · rename_i hcap
      simp only [maxCacheSize, Nat.not_le] at hcap
      have := mapSet_length_le c k ⟨v, now + calculateCacheTTL v, now⟩
      omega
  · intro now now2 k v c k0 e0 hcap hh hne
    have hgoal : setCache now k v none c =
        mapSet (if maxCacheSize ≤ c.length then
            match c.head? with
            | some p => mapDelete c p.1
            | none => c
          else c) k ⟨v, now + calculateCacheTTL v, now⟩ := rfl
    rw [hgoal, if_pos (show maxCacheSize ≤ c.length by simpa [maxCacheSize] using hcap)]
    simp only [hh]
    have h1 : mapGet (mapSet (mapDelete c k0) k
        ⟨v, now + calculateCacheTTL v, now⟩) k0 = none := by
      rw [mapGet_mapSet_ne _ _ _ _ hne, mapGet_mapDelete_self]
    simp [getFromCache, h1]
  · decide

/-! ### Query engine: providers, record types, error classification -/

/-- `this.fallbackOrder`. -/
def fallbackOrder : List String := ["cloudflare", "google", "quad9"]

/-- `this.dohProviders`: endpoint URL per provider name. -/
def dohProviders (p : String) : Option String :=
  if p = "cloudflare" then some "https://cloudflare-dns.com/dns-query"
  else if p = "google" then some "https://dns.google/dns-query"
  else if p = "quad9" then some "https://dns.quad9.net/dns-query"
  else none

/-- `this.recordTypes`: record-type name → numeric DNS type code (no code is
0, so JS truthiness of `this.recordTypes[t]` is definedness). -/
def recordTypeCode (t : String) : Option Nat :=
  if t = "A" then some 1
  else if t = "NS" then some 2
  else if t = "CNAME" then some 5
  else if t = "SOA" then some 6
  else if t = "PTR" then some 12
  else if t = "MX" then some 15
  else if t = "TXT" then some 16
  else if t = "AAAA" then some 28
  else if t = "SRV" then some 33
  else none

/-- `Object.keys(this.recordTypes)` in insertion order. -/
def allRecordTypes : List String :=
  ["A", "NS", "CNAME", "SOA", "PTR", "MX", "TXT", "AAAA", "SRV"]

/-- `DNSQueryEngine.categorizeError`. -/
def categorizeError (msg : String) : String :=
  if strIncludes msg "timeout" then
    "Request timed out - DNS server may be slow or unreachable"
  else if strIncludes msg "Network error" then
    "Network connection failed - check your internet connection"
  else if strIncludes msg "Name Error" || strIncludes msg "NXDOMAIN" then
    "Domain not found - verify the domain name is correct"
  else if strIncludes msg "Server Failure" then
    "DNS server error - the authoritative server is having issues"
  else if strIncludes msg "Refused" then
    "DNS query refused - the server declined to answer"
  else if strIncludes msg "All DNS providers failed" then
    "All DNS providers unavailable - try again later"
  else msg

/-- `DNSQueryEngine.isRetryableError`. -/
def isRetryableError (msg : String) : Bool :=
  strIncludes msg "timeout" || strIncludes msg "Network error" ||
    strIncludes msg "Server Failure" || strIncludes msg "All DNS providers failed"

/-- The non-retry test inside `queryWithRetry`'s catch: validation errors,
and any `DoH API request failed` message that contains the character `4`
anywhere (which covers every 4xx status — but also e.g. 504). -/
def nonRetryableMsg (msg : String) : Bool :=
  strIncludes msg "Invalid domain" || strIncludes msg "Unsupported" ||
    (strIncludes msg "DoH API request failed" && strIncludes msg "4")

/-- The message `performQuery` raises for a non-2xx HTTP response:
`DoH API request failed: <status> <statusText>`. -/
def mkHttpErrorMsg (status : Nat) (statusText : String) : String :=
  "DoH API request failed: " ++ Nat.repr status ++ " " ++ statusText

/-- The outcome `performQuery(domain, recordType, provider)` settles with on
its n-th invocation inside one retry loop: one DoH network interaction,
abstracted as a deterministic oracle (the claims' "provider-response
environment"). -/
def Env : Type := String → String → String → Nat → Except String QueryResult

/-- What one `queryWithRetry` call did: its outcome, how many `performQuery`
attempts it made, and the back-off delays (ms) slept between attempts. -/
structure RetryOutcome where
  result : Except String QueryResult
  attemptsMade : Nat
  delays : List Nat
deriving Repr

/-- The retry loop of `queryWithRetry`, at attempt number `attempt`, with
`fuel` further attempts allowed after this one (`fuel = maxRetries -
attempt`; when `fuel = 0` both the non-retryable and the last-attempt branch
of the catch throw the same error). -/
def retryGo (env : Env) (retryDelay : Nat) (domain rt provider : String)
    (attempt : Nat) : Nat → RetryOutcome
  | 0 =>
    match env domain rt provider attempt with
    | .ok r => ⟨.ok r, 1, []⟩
    | .error e => ⟨.error e, 1, []⟩
  | fuel + 1 =>
    match env domain rt provider attempt with
    | .ok r => ⟨.ok r, 1, []⟩
    | .error e =>
      if nonRetryableMsg e then ⟨.error e, 1, []⟩
      else
        let rest := retryGo env retryDelay domain rt provider (attempt + 1) fuel
        ⟨rest.result, rest.attemptsMade + 1,
          retryDelay * 2 ^ (attempt - 1) :: rest.delays⟩

/-- `DNSQueryEngine.queryWithRetry`.  With `maxRetries = 0` the JS loop body
never runs and `throw lastError` throws `null`. -/
def queryWithRetry (env : Env) (retryDelay maxRetries : Nat)
    (domain rt provider : String) : RetryOutcome :=
  match maxRetries with
  | 0 => ⟨.error "null", 0, []⟩
  | m + 1 => retryGo env retryDelay domain rt provider 1 m

/-- The provider loop of `queryDNS`: tries each provider in order, skipping
names with no DoH endpoint; stops at the first success.  Also returns the
list of providers actually attempted, in order. -/
def providerLoop (env : Env) (retryDelay maxRetries : Nat) (domain rt : String) :
    List String → Option String → Except String QueryResult × List String
  | [], lastError =>
    (.error ("All DNS providers failed. Last error: " ++
      (match lastError with
       | some m => if m = "" then "Unknown error" else m
       | none => "Unknown error")), [])
  | p :: rest, lastError =>
    if (dohProviders p).isNone then
      providerLoop env retryDelay maxRetries domain rt rest lastError
    else
      match (queryWithRetry env retryDelay maxRetries domain rt p).result with
      | .ok r => (.ok r, [p])
      | .error e =>
        let next := providerLoop env retryDelay maxRetries domain rt rest (some e)
        (next.1, p :: next.2)

/-- `DNSQueryEngine.queryDNS`: validates the domain and the record type, then
tries `[preferredProvider] ++ fallbackOrder.filter (· !== preferredProvider)`. -/
def queryDNS (env : Env) (retryDelay maxRetries : Nat)
    (domain rt pref : String) : Except String QueryResult × List String :=
  if validateDomain domain = false then
    (.error ("Invalid domain name: " ++ domain), [])
  else if (recordTypeCode rt).isNone then
    (.error ("Unsupported DNS record type: " ++ rt), [])
  else
    providerLoop env retryDelay maxRetries domain rt
      (pref :: fallbackOrder.filter (fun p => p != pref)) none

/-- The synthesized failure QueryResult that `queryAllRecords` stores for a
record type whose `queryDNS` raised. -/
def mkFailedResult (domain rt errMsg : String) : QueryResult :=
  { domain := domain, recordType := rt, records := [],
    error := some (categorizeError errMsg), originalError := some errMsg,
    source := "failed", failedProviders := some fallbackOrder,
    retryable := some (isRetryableError errMsg) }

/-- The per-type fan-out of `queryAllRecords` over a list of record types:
the results object (in type order), whether any type succeeded
(`hasAnySuccess`), and how many failed (`totalFailures`).  The batching in
groups of 3 only bounds concurrent requests; the collected results are the
same. -/
def allRecordsLoop (env : Env) (retryDelay maxRetries : Nat)
    (domain pref : String) : List String → RecordSet × Bool × Nat
  | [] => ([], false, 0)
  | t :: rest =>
    let out := allRecordsLoop env retryDelay maxRetries domain pref rest
    match (queryDNS env retryDelay maxRetries domain t pref).1 with
    | .ok r => ((t, r) :: out.1, true, out.2.2)
    | .error e => ((t, mkFailedResult domain t e) :: out.1, out.2.1, out.2.2 + 1)

/-- `DNSQueryEngine.queryAllRecords`: validates, consults the cache (key =
lowercased domain ++ ":ALL"; a hit is returned tagged `fromCache`), fans out
over all 9 record types, raises only if every type failed, and otherwise
caches (when some type succeeded) and returns the results.  The Bool is the
`fromCache` tag and the returned Cache the store after the call (the
hit/miss counters are omitted). -/
def queryAllRecords (env : Env) (retryDelay maxRetries now : Nat)
    (domain pref : String) (c : Cache) :
    Except String (RecordSet × Bool × Cache) :=
  if validateDomain domain = false then
    .error ("Invalid domain name: " ++ domain)
  else
    let got := getFromCache now (jsToLower domain ++ ":ALL") c
    match got.1 with
    | some data => .ok (data, true, got.2)
    | none =>
      let out := allRecordsLoop env retryDelay maxRetries domain pref allRecordTypes
      if out.2.1 = false ∧ out.2.2 = allRecordTypes.length then
        .error ("Failed to retrieve any DNS records for " ++ domain ++ ". All " ++
          Nat.repr out.2.2 ++ " record type queries failed.")
      else
        .ok (out.1, false,
          if out.2.1 then setCache now (jsToLower domain ++ ":ALL") out.1 none got.2
          else got.2)

/-! ### Substring lemmas -/

theorem listIncludes_nil_needle (hay : List Char) : listIncludes [] hay = true := by
  cases hay with
  | nil => rfl
  | cons c rest => simp [listIncludes, List.isPrefixOf]

theorem listIncludes_append_left {n a : List Char} (b : List Char)
    (h : listIncludes n a = true) : listIncludes n (a ++ b) = true := by
  induction a with
  | nil =>
    have : n = [] := by simpa [listIncludes, List.isEmpty_iff] using h
    subst this
    exact listIncludes_nil_needle b
  | cons c rest ih =>
    rw [List.cons_append]
    unfold listIncludes at h ⊢
    rcases Bool.or_eq_true_iff.mp h with h | h
    · have hpre : n <+: c :: rest := List.isPrefixOf_iff_prefix.mp h
      have : n <+: c :: (rest ++ b) := by
        have := hpre.trans (List.prefix_append (c :: rest) b)
        simpa using this
      simp [List.isPrefixOf_iff_prefix.mpr this]
    · simp [ih h]

theorem strIncludes_append_left (a b sub : String)
    (h : strIncludes a sub = true) : strIncludes (a ++ b) sub = true := by
  unfold strIncludes at h ⊢
  rw [String.data_append]
  exact listIncludes_append_left _ h

/-! ### Retry-loop lemmas (C2) -/

theorem retryGo_spec (env : Env) (rd : Nat) (d t p : String) :
    ∀ (fuel attempt : Nat), 1 ≤ attempt →
      1 ≤ (retryGo env rd d t p attempt fuel).attemptsMade ∧
      (retryGo env rd d t p attempt fuel).attemptsMade ≤ fuel + 1 ∧
      (retryGo env rd d t p attempt fuel).delays =
        (List.range ((retryGo env rd d t p attempt fuel).attemptsMade - 1)).map
          (fun i => rd * 2 ^ (attempt - 1 + i)) := by
  intro fuel
  induction fuel with
  | zero =>
    intro attempt _
    unfold retryGo
    cases henv : env d t p attempt <;> simp
  | succ fuel ih =>
    intro attempt hatt
    unfold retryGo
    cases henv : env d t p attempt with
    | ok r => simp
    | error e =>
      by_cases hnr : nonRetryableMsg e = true
      · simp [hnr]
      · rw [Bool.not_eq_true] at hnr
        simp only [hnr, Bool.false_eq_true, if_false]
        obtain ⟨h1, h2, h3⟩ := ih (attempt + 1) (by omega)
        refine ⟨by omega, by omega, ?_⟩
        set n := (retryGo env rd d t p (attempt + 1) fuel).attemptsMade with hn
        have hsplit : n = (n - 1) + 1 := by omega
        simp only [Nat.add_sub_cancel]
        rw [hsplit, List.range_succ_eq_map, List.map_cons, List.map_map]
        congr 1
        rw [h3]
        refine List.map_congr_left ?_
        intro i _
        have hexp : attempt + 1 - 1 + i = attempt - 1 + (i + 1) := by omega
        simp [Function.comp, hexp, Nat.succ_eq_add_one]
        exact Or.inl (by omega)

theorem retryGo_allFail (env : Env) (rd : Nat) (d t p : String) :
    ∀ (fuel attempt : Nat),
      (∀ a, attempt ≤ a → a ≤ attempt + fuel →
        ∃ e, env d t p a = .error e ∧ nonRetryableMsg e = false) →
      (retryGo env rd d t p attempt fuel).attemptsMade = fuel + 1 ∧
      (retryGo env rd d t p attempt fuel).result = env d t p (attempt + fuel) := by
  intro fuel
  induction fuel with
  | zero =>
    intro attempt h
    obtain ⟨e, he, _⟩ := h attempt (Nat.le_refl _) (by omega)
    unfold retryGo
    rw [he]
    exact ⟨rfl, by rw [Nat.add_zero, he]⟩
  | succ fuel ih =>
    intro attempt h
    obtain ⟨e, he, hnr⟩ := h attempt (Nat.le_refl _) (by omega)
    unfold retryGo
    rw [he]
    simp only [hnr, Bool.false_eq_true, if_false]
    obtain ⟨ha, hr⟩ := ih (attempt + 1) (fun a ha1 ha2 => h a (by omega) (by omega))
    refine ⟨by simpa using ha, ?_⟩
    have harg : attempt + 1 + fuel = attempt + (fuel + 1) := by omega
    simpa [harg] using hr

/-- A concrete provider-response environment whose first attempt fails with
HTTP 504 (a 5xx status) and whose later attempts would succeed. -/
def env504 : Env := fun _ _ _ attempt =>
  if attempt = 1 then .error "DoH API request failed: 504 Gateway Timeout"
  else .ok { domain := "example.com", recordType := "A", records := [],
             source := "google" }

/-- C2 counterexample: with the default `maxRetries = 3`, a 5xx-class
provider HTTP error (504) whose message contains the character `4` is not
retried: `queryWithRetry` stops after one attempt and surfaces the 504 error
even though attempt 2 would have succeeded, contradicting "a 5xx-class
provider HTTP error is retryable". -/
theorem c2_504_counterexample :
    (queryWithRetry env504 1000 3 "example.com" "A" "google").result =
      .error "DoH API request failed: 504 Gateway Timeout" ∧
    (queryWithRetry env504 1000 3 "example.com" "A" "google").attemptsMade = 1 ∧
    (queryWithRetry env504 1000 3 "example.com" "A" "google").delays = [] ∧
    env504 "example.com" "A" "google" 2 =
      .ok { domain := "example.com", recordType := "A", records := [],
            source := "google" } := by
  refine ⟨rfl, rfl, rfl, rfl⟩

/-- C2 (amended): `queryWithRetry` makes between 1 and `maxRetries` attempts;
a first-attempt failure the code classifies as non-retryable (message
containing `Invalid domain` or `Unsupported`, or a `DoH API request failed`
message containing the character `4` anywhere — all 4xx statuses, but also
e.g. 504) propagates immediately with no delay; the delays between retryable
attempts are `retryDelay * 2 ^ (attempt - 1)`; when every attempt fails
retryably, all `maxRetries` attempts are made and the last error is
surfaced.  4xx messages are always non-retryable regardless of status text;
a 5xx message is retried only when it contains no `4`. -/
theorem c2_retry_policy_amended :
    (∀ (env : Env) (rd mr : Nat) (d t p : String), 1 ≤ mr →
      1 ≤ (queryWithRetry env rd mr d t p).attemptsMade ∧
      (queryWithRetry env rd mr d t p).attemptsMade ≤ mr) ∧
    (∀ (env : Env) (rd mr : Nat) (d t p : String) (e : String), 1 ≤ mr →
      env d t p 1 = .error e → nonRetryableMsg e = true →
      queryWithRetry env rd mr d t p = ⟨.error e, 1, []⟩) ∧
    (∀ (env : Env) (rd mr : Nat) (d t p : String), 1 ≤ mr →
      (queryWithRetry env rd mr d t p).delays =
        (List.range ((queryWithRetry env rd mr d t p).attemptsMade - 1)).map
          (fun i => rd * 2 ^ i)) ∧
    (∀ (env : Env) (rd mr : Nat) (d t p : String), 1 ≤ mr →
      (∀ a, 1 ≤ a → a ≤ mr →
        ∃ e, env d t p a = .error e ∧ nonRetryableMsg e = false) →
      (queryWithRetry env rd mr d t p).attemptsMade = mr ∧
      (queryWithRetry env rd mr d t p).result = env d t p mr) ∧
    (∀ statusText : String, nonRetryableMsg (mkHttpErrorMsg 404 statusText) = true) ∧
    nonRetryableMsg (mkHttpErrorMsg 503 "Service Unavailable") = false ∧
    nonRetryableMsg (mkHttpErrorMsg 504 "Gateway Timeout") = true := by
  refine ⟨?_, ?_, ?_, ?_, ?_, by decide, by decide⟩
  · intro env rd mr d t p hmr
    match mr, hmr with
    | m + 1, _ =>
      obtain ⟨h1, h2, _⟩ := retryGo_spec env rd d t p m 1 (Nat.le_refl _)
      exact ⟨h1, h2⟩
  · intro env rd mr d t p e hmr he hnr
    match mr, hmr with
    | m + 1, _ =>
      show retryGo env rd d t p 1 m = _
      cases m with
      | zero => unfold retryGo; rw [he]
      | succ m => unfold retryGo; rw [he]; simp [hnr]
  · intro env rd mr d t p hmr
    match mr, hmr with
    | m + 1, _ =>
      obtain ⟨_, _, h3⟩ := retryGo_spec env rd d t p m 1 (Nat.le_refl _)
      show (retryGo env rd d t p 1 m).delays = _
      rw [h3]
      refine List.map_congr_left ?_
      intro i _
      norm_num
  · intro env rd mr d t p hmr hall
    match mr, hmr with
    | m + 1, _ =>
      obtain ⟨ha, hr⟩ := retryGo_allFail env rd d t p m 1
        (fun a ha1 ha2 => hall a ha1 (by omega))
      constructor
      · simpa using ha
      · show (retryGo env rd d t p 1 m).result = _
        rw [hr]
        congr 1
        omega
  · intro statusText
    have hsplit : mkHttpErrorMsg 404 statusText =
        ("DoH API request failed: " ++ Nat.repr 404 ++ " ") ++ statusText := rfl
    have h1 : strIncludes (mkHttpErrorMsg 404 statusText) "DoH API request failed" = true := by
      rw [hsplit]
      exact strIncludes_append_left _ _ _ (by decide)
    have h2 : strIncludes (mkHttpErrorMsg 404 statusText) "4" = true := by
      rw [hsplit]
      exact strIncludes_append_left _ _ _ (by decide)
    simp [nonRetryableMsg, h1, h2]

/-! ### Provider-fallback lemmas (C3) -/

theorem queryDNS_valid_unfold (env : Env) (rd mr : Nat) (domain rt pref : String)
    (hv : validateDomain domain = true) (code : Nat)
    (hcode : recordTypeCode rt = some code) :
    queryDNS env rd mr domain rt pref =
      providerLoop env rd mr domain rt
        (pref :: fallbackOrder.filter (fun p => p != pref)) none := by
  unfold queryDNS
  rw [if_neg (by simp [hv]), if_neg (by simp [hcode])]

theorem providerLoop_cons_ok (env : Env) (rd mr : Nat) (domain rt p : String)
    (rest : List String) (lastE : Option String) (r : QueryResult)
    (hp : (dohProviders p).isNone = false)
    (h : (queryWithRetry env rd mr domain rt p).result = .ok r) :
    providerLoop env rd mr domain rt (p :: rest) lastE = (.ok r, [p]) := by
  show (if (dohProviders p).isNone then
      providerLoop env rd mr domain rt rest lastE
    else match (queryWithRetry env rd mr domain rt p).result with
      | .ok r => (.ok r, [p])
      | .error e =>
        ((providerLoop env rd mr domain rt rest (some e)).1,
          p :: (providerLoop env rd mr domain rt rest (some e)).2)) = _
  rw [if_neg (by simp [hp]), h]

theorem providerLoop_cons_err (env : Env) (rd mr : Nat) (domain rt p : String)
    (rest : List String) (lastE : Option String) (e : String)
    (hp : (dohProviders p).isNone = false)
    (h : (queryWithRetry env rd mr domain rt p).result = .error e) :
    providerLoop env rd mr domain rt (p :: rest) lastE =
      ((providerLoop env rd mr domain rt rest (some e)).1,
        p :: (providerLoop env rd mr domain rt rest (some e)).2) := by
  show (if (dohProviders p).isNone then
      providerLoop env rd mr domain rt rest lastE
    else match (queryWithRetry env rd mr domain rt p).result with
      | .ok r => (.ok r, [p])
      | .error e =>
        ((providerLoop env rd mr domain rt rest (some e)).1,
          p :: (providerLoop env rd mr domain rt rest (some e)).2)) = _
  rw [if_neg (by simp [hp]), h]

theorem providerLoop_nil (env : Env) (rd mr : Nat) (domain rt e : String) :
    providerLoop env rd mr domain rt [] (some e) =
      (.error ("All DNS providers failed. Last error: " ++
        (if e = "" then "Unknown error" else e)), []) := rfl

/-- A concrete environment where google always fails with a retryable
network error and every other provider succeeds. -/
def envC3 : Env := fun _ _ p _ =>
  if p = "google" then .error "Network error: Unable to reach google DoH API"
  else .ok { domain := "example.com", recordType := "A",
             records := [⟨"example.com", "A", 3600, "93.184.216.34"⟩],
             source := "cloudflare" }

/-- C3: with `preferredProvider = "google"` and a valid domain and supported
record type, `queryDNS` attempts providers in exactly the order google,
cloudflare, quad9, stops at the first success, and only when all three fail
does it fail — with a combined error naming the last underlying failure.
The last conjunct exhibits a concrete run: google fails, cloudflare answers,
quad9 is never tried. -/
theorem c3_queryDNS_fallback_google :
    (∀ (env : Env) (rd mr : Nat) (domain rt : String) (r : QueryResult),
      validateDomain domain = true → (recordTypeCode rt).isSome = true →
      (queryWithRetry env rd mr domain rt "google").result = .ok r →
      queryDNS env rd mr domain rt "google" = (.ok r, ["google"])) ∧
    (∀ (env : Env) (rd mr : Nat) (domain rt : String) (e1 : String) (r : QueryResult),
      validateDomain domain = true → (recordTypeCode rt).isSome = true →
      (queryWithRetry env rd mr domain rt "google").result = .error e1 →
      (queryWithRetry env rd mr domain rt "cloudflare").result = .ok r →
      queryDNS env rd mr domain rt "google" = (.ok r, ["google", "cloudflare"])) ∧
    (∀ (env : Env) (rd mr : Nat) (domain rt : String) (e1 e2 : String) (r : QueryResult),
      validateDomain domain = true → (recordTypeCode rt).isSome = true →
      (queryWithRetry env rd mr domain rt "google").result = .error e1 →
      (queryWithRetry env rd mr domain rt "cloudflare").result = .error e2 →
      (queryWithRetry env rd mr domain rt "quad9").result = .ok r →
      queryDNS env rd mr domain rt "google" =
        (.ok r, ["google", "cloudflare", "quad9"])) ∧
    (∀ (env : Env) (rd mr : Nat) (domain rt : String) (e1 e2 e3 : String),
      validateDomain domain = true → (recordTypeCode rt).isSome = true →
      (queryWithRetry env rd mr domain rt "google").result = .error e1 →
      (queryWithRetry env rd mr domain rt "cloudflare").result = .error e2 →
      (queryWithRetry env rd mr domain rt "quad9").result = .error e3 →
      queryDNS env rd mr domain rt "google" =
        (.error ("All DNS providers failed. Last error: " ++
          (if e3 = "" then "Unknown error" else e3)),
         ["google", "cloudflare", "quad9"])) ∧
    queryDNS envC3 1000 3 "example.com" "A" "google" =
      (.ok { domain := "example.com", recordType := "A",
             records := [⟨"example.com", "A", 3600, "93.184.216.34"⟩],
             source := "cloudflare" },
       ["google", "cloudflare"]) := by
  have horder : fallbackOrder.filter (fun p => p != "google") =
      ["cloudflare", "quad9"] := rfl
  refine ⟨?_, ?_, ?_, ?_, ?_⟩
  · intro env rd mr domain rt r hv hrt hg
    obtain ⟨code, hcode⟩ := Option.isSome_iff_exists.mp hrt
    rw [queryDNS_valid_unfold env rd mr domain rt "google" hv code hcode, horder,
      providerLoop_cons_ok env rd mr domain rt "google" _ _ r rfl hg]
  · intro env rd mr domain rt e1 r hv hrt hg hc
    obtain ⟨code, hcode⟩ := Option.isSome_iff_exists.mp hrt
    rw [queryDNS_valid_unfold env rd mr domain rt "google" hv code hcode, horder,
      providerLoop_cons_err env rd mr domain rt "google" _ _ e1 rfl hg,
      providerLoop_cons_ok env rd mr domain rt "cloudflare" _ _ r rfl hc]
  · intro env rd mr domain rt e1 e2 r hv hrt hg hc hq
    obtain ⟨code, hcode⟩ := Option.isSome_iff_exists.mp hrt
    rw [queryDNS_valid_unfold env rd mr domain rt "google" hv code hcode, horder,
      providerLoop_cons_err env rd mr domain rt "google" _ _ e1 rfl hg,
      providerLoop_cons_err env rd mr domain rt "cloudflare" _ _ e2 rfl hc,
      providerLoop_cons_ok env rd mr domain rt "quad9" _ _ r rfl hq]
  · intro env rd mr domain rt e1 e2 e3 hv hrt hg hc hq
    obtain ⟨code, hcode⟩ := Option.isSome_iff_exists.mp hrt
    rw [queryDNS_valid_unfold env rd mr domain rt "google" hv code hcode, horder,
      providerLoop_cons_err env rd mr domain rt "google" _ _ e1 rfl hg,
      providerLoop_cons_err env rd mr domain rt "cloudflare" _ _ e2 rfl hc,
      providerLoop_cons_err env rd mr domain rt "quad9" _ _ e3 rfl hq,
      providerLoop_nil env rd mr domain rt e3]
  · rfl

/-! ### Fan-out lemmas (C1) -/

/-- Whether the `queryDNS` call for one record type succeeded. -/
def queryOk (env : Env) (rd mr : Nat) (d pref t : String) : Bool :=
  match (queryDNS env rd mr d t pref).1 with
  | .ok _ => true
  | .error _ => false

theorem allRecordsLoop_cons (env : Env) (rd mr : Nat) (d pref t : String)
    (rest : List String) :
    allRecordsLoop env rd mr d pref (t :: rest) =
      match (queryDNS env rd mr d t pref).1 with
      | .ok r => ((t, r) :: (allRecordsLoop env rd mr d pref rest).1, true,
          (allRecordsLoop env rd mr d pref rest).2.2)
      | .error e =>
          ((t, mkFailedResult d t e) :: (allRecordsLoop env rd mr d pref rest).1,
            (allRecordsLoop env rd mr d pref rest).2.1,
            (allRecordsLoop env rd mr d pref rest).2.2 + 1) := rfl

theorem allRecordsLoop_keys (env : Env) (rd mr : Nat) (d pref : String) :
    ∀ ts : List String,
      (allRecordsLoop env rd mr d pref ts).1.map Prod.fst = ts := by
  intro ts
  induction ts with
  | nil => rfl
  | cons t rest ih =>
    rw [allRecordsLoop_cons]
    cases hq : (queryDNS env rd mr d t pref).1 <;> simp [ih]

theorem allRecordsLoop_anyS (env : Env) (rd mr : Nat) (d pref : String) :
    ∀ ts : List String,
      (allRecordsLoop env rd mr d pref ts).2.1 =
        ts.any (queryOk env rd mr d pref) := by
  intro ts
  induction ts with
  | nil => rfl
  | cons t rest ih =>
    rw [allRecordsLoop_cons]
    cases hq : (queryDNS env rd mr d t pref).1 with
    | ok r => simp [List.any_cons, queryOk, hq]
    | error e => simp [List.any_cons, queryOk, hq, ih]

theorem allRecordsLoop_fails_of_allFail (env : Env) (rd mr : Nat) (d pref : String) :
    ∀ ts : List String, (∀ t ∈ ts, queryOk env rd mr d pref t = false) →
      (allRecordsLoop env rd mr d pref ts).2.2 = ts.length := by
  intro ts
  induction ts with
  | nil => intro _; rfl
  | cons t rest ih =>
    intro h
    rw [allRecordsLoop_cons]
    cases hq : (queryDNS env rd mr d t pref).1 with
    | ok r =>
      have := h t (List.mem_cons_self t rest)
      rw [queryOk, hq] at this
      simp at this
    | error e =>
      have := ih (fun s hs => h s (List.mem_cons_of_mem t hs))
      simp [this]

theorem allRecordsLoop_mem_ok (env : Env) (rd mr : Nat) (d pref : String) :
    ∀ (ts : List String) (t : String) (r : QueryResult), t ∈ ts →
      (queryDNS env rd mr d t pref).1 = .ok r →
      (t, r) ∈ (allRecordsLoop env rd mr d pref ts).1 := by
  intro ts
  induction ts with
  | nil => intro t r h; simp at h
  | cons s rest ih =>
    intro t r hmem hq
    rw [allRecordsLoop_cons]
    rcases List.mem_cons.mp hmem with hts | hts
    · subst hts
      rw [hq]
      exact List.mem_cons_self _ _
    · cases hq' : (queryDNS env rd mr d s pref).1 <;>
        exact List.mem_cons_of_mem _ (ih t r hts hq)

theorem allRecordsLoop_mem_err (env : Env) (rd mr : Nat) (d pref : String) :
    ∀ (ts : List String) (t : String) (e : String), t ∈ ts →
      (queryDNS env rd mr d t pref).1 = .error e →
      (t, mkFailedResult d t e) ∈ (allRecordsLoop env rd mr d pref ts).1 := by
  intro ts
  induction ts with
  | nil => intro t e h; simp at h
  | cons s rest ih =>
    intro t e hmem hq
    rw [allRecordsLoop_cons]
    rcases List.mem_cons.mp hmem with hts | hts
    · subst hts
      rw [hq]
      exact List.mem_cons_self _ _
    · cases hq' : (queryDNS env rd mr d s pref).1 <;>
        exact List.mem_cons_of_mem _ (ih t e hts hq)

/-- An environment where every DoH interaction times out. -/
def envAllFail : Env := fun _ _ _ _ => .error "DNS query timeout after 10000ms"

/-- An environment where only the A-record queries answer. -/
def envC1 : Env := fun _ t _ _ =>
  if t = "A" then
    .ok { domain := "example.com", recordType := "A",
          records := [⟨"example.com", "A", 3600, "93.184.216.34"⟩],
          source := "cloudflare" }
  else .error "DNS query timeout after 10000ms"

/-- C1: on a valid domain and a cache miss, `queryAllRecords` raises exactly
when all 9 per-type `queryDNS` calls failed; otherwise it returns one entry
per supported record type in order, where a succeeded type maps to its
result and a failed type maps to a synthesized result with empty records, a
categorized error string and a retryable flag.  The last two conjuncts run
two concrete environments: total failure raises, a single-type success
returns a RecordSet. -/
theorem c1_queryAllRecords_partial_failure :
    (∀ (env : Env) (rd mr now : Nat) (domain pref : String) (c : Cache),
      validateDomain domain = true →
      (getFromCache now (jsToLower domain ++ ":ALL") c).1 = none →
      ((∃ msg, queryAllRecords env rd mr now domain pref c = .error msg) ↔
        ∀ t ∈ allRecordTypes, ∃ e, (queryDNS env rd mr domain t pref).1 = .error e)) ∧
    (∀ (env : Env) (rd mr now : Nat) (domain pref : String) (c : Cache)
        (rs : RecordSet) (fromC : Bool) (c2 : Cache),
      validateDomain domain = true →
      (getFromCache now (jsToLower domain ++ ":ALL") c).1 = none →
      queryAllRecords env rd mr now domain pref c = .ok (rs, fromC, c2) →
      rs.map Prod.fst = allRecordTypes ∧
      (∀ (t : String) (r : QueryResult), t ∈ allRecordTypes →
        (queryDNS env rd mr domain t pref).1 = .ok r → (t, r) ∈ rs) ∧
      (∀ (t e : String), t ∈ allRecordTypes →
        (queryDNS env rd mr domain t pref).1 = .error e →
        (t, mkFailedResult domain t e) ∈ rs ∧
        (mkFailedResult domain t e).records = [] ∧
        (mkFailedResult domain t e).error = some (categorizeError e) ∧
        (mkFailedResult domain t e).retryable = some (isRetryableError e))) ∧
    queryAllRecords envAllFail 1000 3 0 "example.com" "cloudflare" [] =
      .error "Failed to retrieve any DNS records for example.com. All 9 record type queries failed." ∧
    (queryAllRecords envC1 1000 3 0 "example.com" "cloudflare" []).isOk = true := by
  have hunfold : ∀ (env : Env) (rd mr now : Nat) (domain pref : String) (c : Cache),
      validateDomain domain = true →
      (getFromCache now (jsToLower domain ++ ":ALL") c).1 = none →
      queryAllRecords env rd mr now domain pref c =
        (if (allRecordsLoop env rd mr domain pref allRecordTypes).2.1 = false ∧
            (allRecordsLoop env rd mr domain pref allRecordTypes).2.2 =
              allRecordTypes.length then
          .error ("Failed to retrieve any DNS records for " ++ domain ++ ". All " ++
            Nat.repr (allRecordsLoop env rd mr domain pref allRecordTypes).2.2 ++
            " record type queries failed.")
        else
          .ok ((allRecordsLoop env rd mr domain pref allRecordTypes).1, false,
            if (allRecordsLoop env rd mr domain pref allRecordTypes).2.1 then
              setCache now (jsToLower domain ++ ":ALL")
                (allRecordsLoop env rd mr domain pref allRecordTypes).1 none
                (getFromCache now (jsToLower domain ++ ":ALL") c).2
            else (getFromCache now (jsToLower domain ++ ":ALL") c).2)) := by
    intro env rd mr now domain pref c hv hmiss
    unfold queryAllRecords
    rw [if_neg (by simp [hv])]
    simp only [hmiss]
  have hallfail : ∀ (env : Env) (rd mr : Nat) (domain pref : String),
      ((allRecordsLoop env rd mr domain pref allRecordTypes).2.1 = false ↔
        ∀ t ∈ allRecordTypes, ∃ e, (queryDNS env rd mr domain t pref).1 = .error e) := by
    intro env rd mr domain pref
    rw [allRecordsLoop_anyS]
    constructor
    · intro h t ht
      have : queryOk env rd mr domain pref t = false := by
        rcases Bool.eq_false_iff.mp h with _
        by_contra hc
        rw [Bool.not_eq_false] at hc
        have : List.any allRecordTypes (queryOk env rd mr domain pref) = true :=
          List.any_eq_true.mpr ⟨t, ht, hc⟩
        rw [this] at h
        simp at h
      rw [queryOk] at this
      cases hq : (queryDNS env rd mr domain t pref).1 with
      | ok r => rw [hq] at this; simp at this
      | error e => exact ⟨e, rfl⟩
    · intro h
      refine Bool.eq_false_iff.mpr ?_
      intro hc
      obtain ⟨t, ht, hok⟩ := List.any_eq_true.mp hc
      obtain ⟨e, he⟩ := h t ht
      rw [queryOk, he] at hok
      simp at hok
  refine ⟨?_, ?_, by rfl, by rfl⟩
  · intro env rd mr now domain pref c hv hmiss
    rw [hunfold env rd mr now domain pref c hv hmiss]
    by_cases hcond : (allRecordsLoop env rd mr domain pref allRecordTypes).2.1 = false ∧
        (allRecordsLoop env rd mr domain pref allRecordTypes).2.2 = allRecordTypes.length
    · rw [if_pos hcond]
      constructor
      · intro _
        exact (hallfail env rd mr domain pref).mp hcond.1
      · intro _
        exact ⟨_, rfl⟩
    · rw [if_neg hcond]
      constructor
      · intro ⟨msg, hmsg⟩
        exact absurd hmsg (by simp)
      · intro h
        exfalso
        refine hcond ⟨(hallfail env rd mr domain pref).mpr h, ?_⟩
        refine allRecordsLoop_fails_of_allFail env rd mr domain pref _ ?_
        intro t ht
        obtain ⟨e, he⟩ := h t ht
        rw [queryOk, he]
  · intro env rd mr now domain pref c rs fromC c2 hv hmiss hok
    rw [hunfold env rd mr now domain pref c hv hmiss] at hok
    by_cases hcond : (allRecordsLoop env rd mr domain pref allRecordTypes).2.1 = false ∧
        (allRecordsLoop env rd mr domain pref allRecordTypes).2.2 = allRecordTypes.length
    · rw [if_pos hcond] at hok
      exact absurd hok (by simp)
    · rw [if_neg hcond] at hok
      have hrs : rs = (allRecordsLoop env rd mr domain pref allRecordTypes).1 := by
        cases hok
        rfl
      subst hrs
      refine ⟨allRecordsLoop_keys env rd mr domain pref _, ?_, ?_⟩
      · intro t r ht hq
        exact allRecordsLoop_mem_ok env rd mr domain pref _ t r ht hq
      · intro t e ht hq
        exact ⟨allRecordsLoop_mem_err env rd mr domain pref _ t e ht hq, rfl, rfl, rfl⟩

/-! ### Error Detection Engine (`DNSErrorDetector`) -/

/-- An Issue as the detector constructs it.  Kind-specific payload fields
(`target`, `chainLength`, `currentValue`, `priority`, `securityType`,
`recordCount`, `lookupCount`, `keyLength`, `expectedLocation`) are omitted:
no claim depends on them.  `recordName` is an Option since not every issue
sets it. -/
structure Issue where
  type : String
  severity : String
  message : String
  description : String
  recommendation : String
  affectedRecords : List String
  recordName : Option String := none
deriving DecidableEq, Repr

/-- JS truthiness of `dnsRecords[t] && dnsRecords[t].records &&
dnsRecords[t].records.length > 0` (the middle conjunct is defensive; the
model's records field is always a list). -/
def hasRecords (ds : RecordSet) (t : String) : Bool :=
  match mapGet ds t with
  | none => false
  | some qr => !qr.records.isEmpty

/-- `DNSErrorDetector.detectMissingRecords`: criticals are collected before
warnings (the returned list is `[...errors, ...warnings]`). -/
def detectMissingRecords (ds : RecordSet) (domain : String) : List Issue :=
  let hasA := hasRecords ds "A"
  let hasAAAA := hasRecords ds "AAAA"
  let errs :=
    (if !hasA && !hasAAAA then
      [{ type := "missing_record", severity := "critical",
         message := "No A or AAAA records found",
         description := "Domain has no IP address records, making it unreachable via web browsers",
         recommendation := "Add at least one A record (IPv4) or AAAA record (IPv6) pointing to your server",
         affectedRecords := ["A", "AAAA"] }]
     else []) ++
    (if !hasRecords ds "NS" then
      [{ type := "missing_record", severity := "critical",
         message := "No NS records found",
         description := "Domain has no authoritative name servers defined",
         recommendation := "Ensure NS records are properly configured at your domain registrar",
         affectedRecords := ["NS"] }]
     else [])
  let warns :=
    (if !hasA && !hasAAAA then []
     else if !hasA then
      [{ type := "missing_record", severity := "warning",
         message := "No A records found",
         description := "Domain lacks IPv4 connectivity, may not be accessible to all users",
         recommendation := "Consider adding A records for broader compatibility",
         affectedRecords := ["A"] }]
     else if !hasAAAA then
      [{ type := "missing_record", severity := "info",
         message := "No AAAA records found",
         description := "Domain lacks IPv6 connectivity",
         recommendation := "Consider adding AAAA records for IPv6 support",
         affectedRecords := ["AAAA"] }]
     else []) ++
    (if !hasRecords ds "MX" then
      [{ type := "missing_record", severity := "warning",
         message := "No MX records found",
         description := "Domain cannot receive email without MX records",
         recommendation := "Add MX records if you want to receive email at this domain",
         affectedRecords := ["MX"] }]
     else [])
  errs ++ warns

/-- The TTL issues `analyzeTTL` emits for one record (thresholds 60 / 300 /
604800 s). -/
def ttlIssuesFor (recordType : String) (r : DNSRecord) : List Issue :=
  (if r.ttl < 60 then
    [{ type := "invalid_ttl", severity := "warning",
       message := "Very low TTL value (" ++ Nat.repr r.ttl ++ "s) for " ++
         recordType ++ " record",
       description := "Extremely low TTL values can cause excessive DNS queries and poor performance",
       recommendation := "Consider increasing TTL to at least 300s",
       affectedRecords := [recordType], recordName := some r.name }]
   else if r.ttl < 300 then
    [{ type := "invalid_ttl", severity := "info",
       message := "Low TTL value (" ++ Nat.repr r.ttl ++ "s) for " ++
         recordType ++ " record",
       description := "Low TTL values increase DNS query frequency",
       recommendation := "Consider using TTL of 300s or higher for better performance",
       affectedRecords := [recordType], recordName := some r.name }]
   else []) ++
  (if r.ttl > 604800 then
    [{ type := "invalid_ttl", severity := "info",
       message := "Very high TTL value (" ++ Nat.repr r.ttl ++ "s) for " ++
         recordType ++ " record",
       description := "Very high TTL values can delay DNS changes propagation",
       recommendation := "Consider using TTL of 86400s or lower for faster updates",
       affectedRecords := [recordType], recordName := some r.name }]
   else [])

/-- `DNSErrorDetector.analyzeTTL`: iterates `Object.entries(dnsRecords)` in
insertion order, skipping empty record lists. -/
def analyzeTTL (ds : RecordSet) : List Issue :=
  ds.flatMap (fun p =>
    if p.2.records.isEmpty then []
    else p.2.records.flatMap (ttlIssuesFor p.1))

/-- The self-reference issue of `detectCircularCNAME`. -/
def selfRefIssue (recordName : String) : Issue :=
  { type := "circular_cname", severity := "critical",
    message := "CNAME record points to itself: " ++ recordName,
    description := "CNAME record creates an immediate circular reference",
    recommendation := "Update CNAME record to point to a different target",
    affectedRecords := ["CNAME"], recordName := some recordName }

/-- The chain-loop issue of `detectCircularCNAME`. -/
def chainIssue (recordName : String) (chain : List String) (cur : String) : Issue :=
  { type := "circular_cname", severity := "critical",
    message := "Circular CNAME reference detected in chain starting from " ++ recordName,
    description := "CNAME chain creates a loop: " ++
      String.intercalate " → " chain ++ " → " ++ cur,
    recommendation := "Break the circular reference by updating one of the CNAME records",
    affectedRecords := ["CNAME"], recordName := some recordName }

/-- The chain-following loop of `detectCircularCNAME`: up to 10 membership
checks against the visited set `chain` (JS Set in insertion order), stepping
through the same CNAME record list. -/
def chainWalk (records : List DNSRecord) (startName : String)
    (chain : List String) (cur : String) : Nat → List Issue
  | 0 => []
  | fuel + 1 =>
    if chain.contains cur then [chainIssue startName chain cur]
    else
      match records.find? (fun rec => jsToLower rec.name == cur) with
      | none => []
      | some nxt => chainWalk records startName (chain ++ [cur]) (jsToLower nxt.data) fuel

/-- The per-starting-record step of `detectCircularCNAME` (the visited set is
reset for each starting record). -/
def cnameIssuesFor (records : List DNSRecord) (r : DNSRecord) : List Issue :=
  let recordName := jsToLower r.name
  let targetName := jsToLower r.data
  if recordName = targetName then [selfRefIssue recordName]
  else chainWalk records recordName [recordName] targetName 10

/-- `DNSErrorDetector.detectCircularCNAME`. -/
def detectCircularCNAME (ds : RecordSet) (domain : String) : List Issue :=
  match mapGet ds "CNAME" with
  | none => []
  | some qr =>
    if qr.records.isEmpty then []
    else qr.records.flatMap (cnameIssuesFor qr.records)

/-! ### MX validation -/

/-- Value of one hexadecimal (or decimal) digit. -/
def hexDigitVal (c : Char) : Option Nat :=
  if c.isDigit then some (c.toNat - 48)
  else if 'a' ≤ c ∧ c ≤ 'f' then some (c.toNat - 87)
  else if 'A' ≤ c ∧ c ≤ 'F' then some (c.toNat - 55)
  else none

/-- JS `parseInt(s)` with no radix argument: skips leading whitespace, takes
an optional sign, switches to base 16 after a `0x`/`0X` prefix, then reads
the longest run of digits of the base; `none` is `NaN`. -/
def jsParseInt (s : String) : Option Int :=
  let cs := s.data.dropWhile isJsWhitespace
  let signAndRest : Int × List Char :=
    match cs with
    | '-' :: rest => (-1, rest)
    | '+' :: rest => (1, rest)
    | _ => (1, cs)
  let baseAndDigits : Nat × List Char :=
    match signAndRest.2 with
    | '0' :: 'x' :: rest => (16, rest)
    | '0' :: 'X' :: rest => (16, rest)
    | _ => (10, signAndRest.2)
  let isD : Char → Bool := fun c =>
    if baseAndDigits.1 = 16 then (hexDigitVal c).isSome else c.isDigit
  let ds := baseAndDigits.2.takeWhile isD
  if ds.isEmpty then none
  else some (signAndRest.1 *
    Int.ofNat (ds.foldl (fun a c => a * baseAndDigits.1 + (hexDigitVal c).getD 0) 0))

/-- `isNaN(priority) || priority < 0 || priority > 65535`. -/
def mxBadPriority : Option Int → Bool
  | none => true
  | some p => p < 0 || p > 65535

/-- How JS prints the parsed priority in the duplicate-priority message
(`NaN` for a failed parse). -/
def mxPriorityRepr : Option Int → String
  | some v => toString v
  | none => "NaN"

/-- The malformed-format critical issue of `validateMXRecords`. -/
def mxFormatIssue (r : DNSRecord) : Issue :=
  { type := "configuration_error", severity := "critical",
    message := "Invalid MX record format: " ++ r.data,
    description := "MX record must contain priority and mail server hostname",
    recommendation := "Fix MX record format: \"priority hostname\"",
    affectedRecords := ["MX"], recordName := some r.name }

/-- The invalid-priority critical issue of `validateMXRecords`. -/
def mxPriorityIssue (r : DNSRecord) (tok : String) : Issue :=
  { type := "configuration_error", severity := "critical",
    message := "Invalid MX priority: " ++ tok,
    description := "MX priority must be a number between 0 and 65535",
    recommendation := "Use a valid priority value (lower numbers have higher priority)",
    affectedRecords := ["MX"], recordName := some r.name }

/-- The duplicate-priority warning issue of `validateMXRecords`. -/
def mxDupIssue (r : DNSRecord) (priority : Option Int) : Issue :=
  { type := "configuration_error", severity := "warning",
    message := "Duplicate MX priority: " ++ mxPriorityRepr priority,
    description := "Multiple MX records with the same priority can cause unpredictable mail routing",
    recommendation := "Use unique priorities for each MX record",
    affectedRecords := ["MX"], recordName := some r.name }

/-- The record loop of `validateMXRecords`, carrying the `priorities` set
(a JS Set treats NaN as equal to NaN, so `none` duplicates `none`).  A
record with fewer than two space-separated tokens gets only the format
issue and is not added to the set; otherwise its parsed first token is
always added (valid or not), and the second token (the mail server) is
never validated. -/
def mxGo : List DNSRecord → List (Option Int) → List Issue
  | [], _ => []
  | r :: rest, prios =>
    let toks := splitOnChar ' ' r.data.data
    if toks.length < 2 then mxFormatIssue r :: mxGo rest prios
    else
      let priority := jsParseInt ⟨toks.headD []⟩
      (if mxBadPriority priority then [mxPriorityIssue r ⟨toks.headD []⟩] else []) ++
      (if prios.contains priority then [mxDupIssue r priority] else []) ++
      mxGo rest (prios ++ [priority])

/-- `DNSErrorDetector.validateMXRecords`. -/
def validateMXRecords (ds : RecordSet) : List Issue :=
  match mapGet ds "MX" with
  | none => []
  | some qr => if qr.records.isEmpty then [] else mxGo qr.records []

/-! ### SPF / DMARC / DKIM validation -/

/-- The length of the lookup-mechanism literal starting at this position
(the regex alternatives `include:`, `a:`, `mx:`, `exists:`, `redirect=`;
their first letters are distinct, so at most one can match). -/
def litAt (cs : List Char) : Option Nat :=
  if ("include:".data).isPrefixOf cs then some 8
  else if ("a:".data).isPrefixOf cs then some 2
  else if ("mx:".data).isPrefixOf cs then some 3
  else if ("exists:".data).isPrefixOf cs then some 7
  else if ("redirect=".data).isPrefixOf cs then some 9
  else none

/-- The regex word-character class `\w` (for the `\b` boundary). -/
def isWordChar (c : Char) : Bool := c.isAlpha || c.isDigit || c = '_'

/-- The global scan of `/\b(include:|a:|mx:|exists:|redirect=)/g`: counts
non-overlapping matches left to right; a match needs a word boundary before
it, i.e. the previous character (if any) is not a word character.  Each
literal ends in `:` or `=`, so after a match the boundary state is reset.
`fuel` only bounds the recursion; each step consumes at least one character,
so `length + 1` fuel never runs out. -/
def spfScanF : Nat → List Char → Bool → Nat
  | 0, _, _ => 0
  | _ + 1, [], _ => 0
  | fuel + 1, c :: rest, prevWord =>
    if prevWord then spfScanF fuel rest (isWordChar c)
    else
      match litAt (c :: rest) with
      | none => spfScanF fuel rest (isWordChar c)
      | some len => 1 + spfScanF fuel (rest.drop (len - 1)) false

/-- `spfData.match(/\b(include:|a:|mx:|exists:|redirect=)/g).length`. -/
def spfLookupCount (s : String) : Nat := spfScanF (s.data.length + 1) s.data false

/-- The invalid-format critical issue of `validateSPFRecord`. -/
def spfFormatIssue (r : DNSRecord) : Issue :=
  { type := "configuration_error", severity := "critical",
    message := "Invalid SPF record format",
    description := "SPF record must contain \"v=spf1\"",
    recommendation := "Ensure SPF record contains \"v=spf1\" followed by mechanisms",
    affectedRecords := ["TXT"], recordName := some r.name }

/-- The missing-termination warning issue of `validateSPFRecord`. -/
def spfTermIssue (r : DNSRecord) : Issue :=
  { type := "configuration_error", severity := "warning",
    message := "SPF record lacks proper termination",
    description := "SPF record should end with an \"all\" mechanism",
    recommendation := "Add \"~all\" (soft fail) or \"-all\" (hard fail) at the end of your SPF record",
    affectedRecords := ["TXT"], recordName := some r.name }

/-- The lookup-limit critical issue of `validateSPFRecord`. -/
def spfLookupIssue (r : DNSRecord) : Issue :=
  { type := "configuration_error", severity := "critical",
    message := "SPF record exceeds DNS lookup limit (" ++
      Nat.repr (spfLookupCount r.data) ++ "/10)",
    description := "SPF records are limited to 10 DNS lookups to prevent abuse",
    recommendation := "Reduce the number of include:, a:, mx:, exists:, and redirect= mechanisms",
    affectedRecords := ["TXT"], recordName := some r.name }

/-- `DNSErrorDetector.validateSPFRecord`.  The termination test is a plain
substring check of `all` / `~all` / `-all` / `?all` anywhere in the data
(so any occurrence of the letters `all` satisfies it). -/
def validateSPFRecord (r : DNSRecord) : List Issue :=
  (if !(strIncludes (jsTrim (jsToLower r.data)) "v=spf1") then [spfFormatIssue r]
   else []) ++
  (if !(strIncludes r.data "all" || strIncludes r.data "~all" ||
        strIncludes r.data "-all" || strIncludes r.data "?all") then
    [spfTermIssue r]
   else []) ++
  (if spfLookupCount r.data > 10 then [spfLookupIssue r] else [])

/-- The `key=value;...` parsing shared by DMARC and DKIM validation: split
on `;`, trim, split each pair on `=`, trim both parts, keep pairs whose key
and value are both nonempty (later occurrences of a key overwrite earlier
ones in the JS object). -/
def parsePairs (data : String) : List (String × String) :=
  ((splitOnChar ';' data.data).map trimList).filterMap (fun seg =>
    match (splitOnChar '=' seg).map trimList with
    | k :: v :: _ =>
      if k ≠ [] ∧ v ≠ [] then some ((⟨k⟩ : String), (⟨v⟩ : String)) else none
    | _ => none)

/-- Property lookup on the parsed pairs object: the last write wins. -/
def kvGet (pairs : List (String × String)) (k : String) : Option String :=
  (pairs.reverse.find? (fun p => p.1 == k)).map (fun p => p.2)

/-- The issues of `validateDMARCRecord`. -/
def validateDMARCRecord (r : DNSRecord) : List Issue :=
  let pairs := parsePairs r.data
  (if (match kvGet pairs "v" with
       | none => true
       | some v => jsToLower v ≠ "dmarc1") then
    [{ type := "configuration_error", severity := "critical",
       message := "Invalid DMARC version",
       description := "DMARC record must start with \"v=DMARC1\"",
       recommendation := "Ensure DMARC record begins with \"v=DMARC1;\"",
       affectedRecords := ["TXT"], recordName := some r.name }]
   else []) ++
  (if (match kvGet pairs "p" with
       | none => true
       | some p => ¬(p = "none" ∨ p = "quarantine" ∨ p = "reject")) then
    [{ type := "configuration_error", severity := "critical",
       message := "Invalid or missing DMARC policy",
       description := "DMARC record must have a valid policy (p=none, p=quarantine, or p=reject)",
       recommendation := "Add a policy tag like \"p=quarantine\" to your DMARC record",
       affectedRecords := ["TXT"], recordName := some r.name }]
   else []) ++
  (if kvGet pairs "p" = some "none" then
    [{ type := "configuration_error", severity := "info",
       message := "DMARC policy set to \"none\"",
       description := "Policy \"none\" provides monitoring but no protection against email spoofing",
       recommendation := "Consider upgrading to \"p=quarantine\" or \"p=reject\" for better protection",
       affectedRecords := ["TXT"], recordName := some r.name }]
   else []) ++
  (if (kvGet pairs "rua").isNone ∧ (kvGet pairs "ruf").isNone then
    [{ type := "configuration_error", severity := "warning",
       message := "No DMARC reporting addresses configured",
       description := "DMARC reports help monitor email authentication",
       recommendation := "Add \"rua=mailto:dmarc@yourdomain.com\" for aggregate reports",
       affectedRecords := ["TXT"], recordName := some r.name }]
   else [])

/-- The issues of `validateDKIMRecord`. -/
def validateDKIMRecord (r : DNSRecord) : List Issue :=
  let pairs := parsePairs r.data
  (if (match kvGet pairs "v" with
       | none => true
       | some v => jsToLower v ≠ "dkim1") then
    [{ type := "configuration_error", severity := "critical",
       message := "Invalid DKIM version",
       description := "DKIM record must start with \"v=DKIM1\"",
       recommendation := "Ensure DKIM record begins with \"v=DKIM1;\"",
       affectedRecords := ["TXT"], recordName := some r.name }]
   else []) ++
  (match kvGet pairs "p" with
   | none =>
    [{ type := "configuration_error", severity := "critical",
       message := "Missing DKIM public key",
       description := "DKIM record must contain a public key (p= tag)",
       recommendation := "Add the public key provided by your email service provider",
       affectedRecords := ["TXT"], recordName := some r.name }]
   | some p =>
    if p.data.length < 100 then
      [{ type := "configuration_error", severity := "warning",
         message := "DKIM public key appears too short",
         description := "DKIM public keys are typically much longer",
         recommendation := "Verify the public key is complete and correctly copied",
         affectedRecords := ["TXT"], recordName := some r.name }]
    else [])

/-- The no-TXT-records warning of `validateSecurityRecords`. -/
def noTxtIssue : Issue :=
  { type := "missing_security", severity := "warning",
    message := "No TXT records found",
    description := "Domain has no TXT records, which are required for email security (SPF, DMARC)",
    recommendation := "Add TXT records for SPF and DMARC to improve email security",
    affectedRecords := ["TXT"] }

/-- The missing-SPF warning of `validateSecurityRecords`. -/
def noSpfIssue : Issue :=
  { type := "missing_security", severity := "warning",
    message := "No SPF record found",
    description := "SPF (Sender Policy Framework) records help prevent email spoofing",
    recommendation := "Add an SPF record like \"v=spf1 include:_spf.google.com ~all\" or appropriate for your email provider",
    affectedRecords := ["TXT"] }

/-- The multiple-SPF-records critical RFC-violation issue. -/
def multiSpfIssue (n : Nat) : Issue :=
  { type := "configuration_error", severity := "critical",
    message := "Multiple SPF records found (" ++ Nat.repr n ++ ")",
    description := "Having multiple SPF records violates RFC 7208 and can cause email delivery issues",
    recommendation := "Combine all SPF mechanisms into a single TXT record",
    affectedRecords := ["TXT"] }

/-- The DMARC-location informational note (the source text's contraction of
"will not" is written out here). -/
def dmarcNoteIssue (domain : String) : Issue :=
  { type := "missing_security", severity := "info",
    message := "DMARC record location note",
    description := "DMARC records are located at _dmarc." ++ domain ++
      " and will not appear in this main domain query",
    recommendation := "DMARC records should be configured at _dmarc." ++ domain ++
      " with content like \"v=DMARC1; p=quarantine; rua=mailto:dmarc@" ++ domain ++
      "\". This tool cannot detect DMARC records as they exist on a subdomain.",
    affectedRecords := ["TXT"] }

/-- The DKIM informational note. -/
def dkimNoteIssue : Issue :=
  { type := "missing_security", severity := "info",
    message := "No DKIM records found in current query",
    description := "DKIM records are typically found at selector._domainkey.domain.com and may not appear in the main domain query. This is normal if DKIM is configured at subdomains.",
    recommendation := "DKIM records are usually at selector._domainkey.domain.com (e.g., default._domainkey.domain.com). Check with your email provider for the correct selector. This may already be configured but not visible in this query.",
    affectedRecords := ["TXT"] }

/-- The complete-configuration informational summary issue. -/
def completeIssue : Issue :=
  { type := "missing_security", severity := "info",
    message := "Complete email security configuration detected",
    description := "Domain has SPF, DMARC, and DKIM records configured",
    recommendation := "Regularly monitor DMARC reports to ensure proper email authentication",
    affectedRecords := ["TXT"] }

/-- The TXT records of a RecordSet that carry `v=spf1` (case-insensitive,
anywhere in the value). -/
def spfRecordsOf (txtRecords : List DNSRecord) : List DNSRecord :=
  txtRecords.filter (fun r => strIncludes (jsToLower r.data) "v=spf1")

/-- `DNSErrorDetector.validateSecurityRecords`. -/
def validateSecurityRecords (ds : RecordSet) (domain : String) : List Issue :=
  match mapGet ds "TXT" with
  | none => [noTxtIssue]
  | some qr =>
    if qr.records.isEmpty then [noTxtIssue]
    else
      let txtRecords := qr.records
      let spfRecords := spfRecordsOf txtRecords
      let dmarcRecords := txtRecords.filter
        (fun r => strIncludes (jsToLower r.data) "v=dmarc1")
      let dkimRecords := txtRecords.filter
        (fun r => strIncludes (jsToLower r.name) "_domainkey" ||
          strIncludes (jsToLower r.data) "v=dkim1")
      let spfPart :=
        if spfRecords.isEmpty then [noSpfIssue]
        else spfRecords.flatMap validateSPFRecord ++
          (if spfRecords.length > 1 then [multiSpfIssue spfRecords.length] else [])
      let dmarcPart :=
        if dmarcRecords.isEmpty then [dmarcNoteIssue domain]
        else dmarcRecords.flatMap validateDMARCRecord
      let dkimPart :=
        if !dkimRecords.isEmpty then dkimRecords.flatMap validateDKIMRecord
        else if (txtRecords.filter
            (fun r => strIncludes (jsToLower r.name) "_domainkey")).isEmpty then
          [dkimNoteIssue]
        else []
      let completePart :=
        if !spfRecords.isEmpty ∧ !dmarcRecords.isEmpty ∧ !dkimRecords.isEmpty then
          [completeIssue]
        else []
      spfPart ++ dmarcPart ++ dkimPart ++ completePart

/-! ### Report assembly -/

/-- `analysis.summary`. -/
structure Summary where
  totalIssues : Nat
  criticalErrors : Nat
  warnings : Nat
  infoItems : Nat
deriving DecidableEq, Repr

/-- `analyzeConfiguration`'s report (the display-only timestamp is
omitted). -/
structure AnalysisReport where
  domain : String
  errors : List Issue
  warnings : List Issue
  info : List Issue
  summary : Summary
deriving DecidableEq, Repr

/-- The partition state of `analyzeConfiguration`'s severity switch. -/
structure Partitioned where
  errors : List Issue
  warnings : List Issue
  info : List Issue
  crit : Nat
  warn : Nat
  inf : Nat
deriving DecidableEq, Repr

/-- The severity switch of `analyzeConfiguration`: pushes each issue into
the list for its severity and bumps the matching counter; an unknown
severity is dropped (no case matches). -/
def categorize : List Issue → Partitioned
  | [] => ⟨[], [], [], 0, 0, 0⟩
  | i :: rest =>
    let out := categorize rest
    if i.severity = "critical" then
      ⟨i :: out.errors, out.warnings, out.info, out.crit + 1, out.warn, out.inf⟩
    else if i.severity = "warning" then
      ⟨out.errors, i :: out.warnings, out.info, out.crit, out.warn + 1, out.inf⟩
    else if i.severity = "info" then
      ⟨out.errors, out.warnings, i :: out.info, out.crit, out.warn, out.inf + 1⟩
    else out

/-- The concatenation of the five rule evaluators, in source order. -/
def allIssuesOf (ds : RecordSet) (domain : String) : List Issue :=
  detectMissingRecords ds domain ++ analyzeTTL ds ++
    detectCircularCNAME ds domain ++ validateMXRecords ds ++
    validateSecurityRecords ds domain

/-- `DNSErrorDetector.analyzeConfiguration`. -/
def analyzeConfiguration (ds : RecordSet) (domain : String) : AnalysisReport :=
  let allIssues := allIssuesOf ds domain
  let p := categorize allIssues
  { domain := domain, errors := p.errors, warnings := p.warnings, info := p.info,
    summary := { totalIssues := allIssues.length, criticalErrors := p.crit,
                 warnings := p.warn, infoItems := p.inf } }

/-! ### CNAME-cycle lemmas (C7) -/

theorem chainWalk_mem (records : List DNSRecord) (startName : String) :
    ∀ (fuel : Nat) (chain : List String) (cur : String) (i : Issue),
      i ∈ chainWalk records startName chain cur fuel →
      i.severity = "critical" ∧ i.type = "circular_cname" := by
  intro fuel
  induction fuel with
  | zero => intro chain cur i h; simp [chainWalk] at h
  | succ fuel ih =>
    intro chain cur i h
    rw [chainWalk] at h
    split at h
    · rw [List.mem_singleton] at h
      subst h
      exact ⟨rfl, rfl⟩
    · split at h
      · simp at h
      · exact ih _ _ i h

theorem cnameIssuesFor_mem (records : List DNSRecord) (r : DNSRecord) (i : Issue)
    (h : i ∈ cnameIssuesFor records r) :
    i.severity = "critical" ∧ i.type = "circular_cname" := by
  rw [cnameIssuesFor] at h
  split at h
  · rw [List.mem_singleton] at h
    subst h
    exact ⟨rfl, rfl⟩
  · exact chainWalk_mem records _ 10 _ _ i h

/-- The two-record cycle of the claim. -/
def dsCycle : RecordSet :=
  [("CNAME", { domain := "example.com", recordType := "CNAME",
               records := [⟨"a.example.com", "CNAME", 300, "b.example.com"⟩,
                           ⟨"b.example.com", "CNAME", 300, "a.example.com"⟩],
               source := "cloudflare" })]

/-- The acyclic two-record chain of the claim. -/
def dsChain : RecordSet :=
  [("CNAME", { domain := "example.com", recordType := "CNAME",
               records := [⟨"a.example.com", "CNAME", 300, "b.example.com"⟩,
                           ⟨"b.example.com", "CNAME", 300, "c.example.com"⟩],
               source := "cloudflare" })]

/-- C7: every issue `detectCircularCNAME` emits is a critical
circular-cname issue; a case-insensitive immediate self-reference always
produces one; the two-record cycle {a → b, b → a} yields a critical issue
for each starting record, and the terminating chain {a → b, b → c} yields
none. -/
theorem c7_detectCircularCNAME_spec :
    (∀ (ds : RecordSet) (domain : String) (i : Issue),
      i ∈ detectCircularCNAME ds domain →
      i.severity = "critical" ∧ i.type = "circular_cname") ∧
    (∀ (ds : RecordSet) (domain : String) (qr : QueryResult) (r : DNSRecord),
      mapGet ds "CNAME" = some qr → r ∈ qr.records →
      jsToLower r.name = jsToLower r.data →
      ∃ i ∈ detectCircularCNAME ds domain, i.severity = "critical") ∧
    (detectCircularCNAME dsCycle "example.com").map Issue.severity =
      ["critical", "critical"] ∧
    detectCircularCNAME dsChain "example.com" = [] := by
  refine ⟨?_, ?_, by decide, by decide⟩
  · intro ds domain i h
    rw [detectCircularCNAME] at h
    split at h
    · simp at h
    · split at h
      · simp at h
      · obtain ⟨r, _, hi⟩ := List.mem_flatMap.mp h
        exact cnameIssuesFor_mem _ r i hi
  · intro ds domain qr r hq hr hself
    have hne : qr.records ≠ [] := List.ne_nil_of_mem hr
    refine ⟨selfRefIssue (jsToLower r.name), ?_, rfl⟩
    have hrw : detectCircularCNAME ds domain =
        if qr.records.isEmpty then []
        else qr.records.flatMap (cnameIssuesFor qr.records) := by
      rw [detectCircularCNAME, hq]
    rw [hrw, if_neg (by simp [List.isEmpty_iff, hne])]
    refine List.mem_flatMap.mpr ⟨r, hr, ?_⟩
    rw [cnameIssuesFor, if_pos hself]
    exact List.mem_singleton.mpr rfl

/-! ### MX lemmas (C8) -/

/-- The space-separated tokens of an MX record's data. -/
def mxToks (r : DNSRecord) : List (List Char) := splitOnChar ' ' r.data.data

/-- The parsed priority of an MX record (its first token through
`parseInt`). -/
def mxPrio (r : DNSRecord) : Option Int := jsParseInt ⟨(mxToks r).headD []⟩

/-- The priorities the loop has added to its set after a record list. -/
def mxPriosOf (rs : List DNSRecord) : List (Option Int) :=
  rs.filterMap (fun r => if (mxToks r).length < 2 then none else some (mxPrio r))

theorem mxGo_cons (r : DNSRecord) (rest : List DNSRecord)
    (prios : List (Option Int)) :
    mxGo (r :: rest) prios =
      if (mxToks r).length < 2 then mxFormatIssue r :: mxGo rest prios
      else
        (if mxBadPriority (mxPrio r) then
          [mxPriorityIssue r ⟨(mxToks r).headD []⟩] else []) ++
        ((if prios.contains (mxPrio r) then [mxDupIssue r (mxPrio r)] else []) ++
          mxGo rest (prios ++ [mxPrio r])) := by
  rw [mxGo]
  simp only [mxToks, mxPrio, List.append_assoc]

theorem mxGo_append (ys : List DNSRecord) :
    ∀ (xs : List DNSRecord) (prios : List (Option Int)),
      mxGo (xs ++ ys) prios = mxGo xs prios ++ mxGo ys (prios ++ mxPriosOf xs) := by
  intro xs
  induction xs with
  | nil => intro prios; simp [mxGo, mxPriosOf]
  | cons r rest ih =>
    intro prios
    rw [List.cons_append, mxGo_cons, mxGo_cons]
    by_cases h : (mxToks r).length < 2
    · rw [if_pos h, if_pos h, ih]
      have hp : mxPriosOf (r :: rest) = mxPriosOf rest := by
        simp [mxPriosOf, List.filterMap_cons, if_pos h]
      rw [hp, List.cons_append]
    · rw [if_neg h, if_neg h, ih]
      have hp : mxPriosOf (r :: rest) = mxPrio r :: mxPriosOf rest := by
        simp [mxPriosOf, List.filterMap_cons, if_neg h]
      rw [hp]
      simp [List.append_assoc]

theorem mxGo_mem (rs : List DNSRecord) :
    ∀ (prios : List (Option Int)) (i : Issue), i ∈ mxGo rs prios →
      i.type = "configuration_error" ∧
        (i.severity = "critical" ∨ i.severity = "warning") := by
  induction rs with
  | nil => intro prios i h; simp [mxGo] at h
  | cons r rest ih =>
    intro prios i h
    rw [mxGo_cons] at h
    split at h
    · rcases List.mem_cons.mp h with he | he
      · subst he; exact ⟨rfl, Or.inl rfl⟩
      · exact ih prios i he
    · rcases List.mem_append.mp h with he | he
      · split at he
        · rw [List.mem_singleton] at he; subst he; exact ⟨rfl, Or.inl rfl⟩
        · simp at he
      · rcases List.mem_append.mp he with he2 | he2
        · split at he2
          · rw [List.mem_singleton] at he2; subst he2; exact ⟨rfl, Or.inr rfl⟩
          · simp at he2
        · exact ih _ i he2

theorem mxGo_mem_format (r : DNSRecord) (hshort : (mxToks r).length < 2) :
    ∀ (rs : List DNSRecord) (prios : List (Option Int)), r ∈ rs →
      mxFormatIssue r ∈ mxGo rs prios := by
  intro rs
  induction rs with
  | nil => intro prios h; simp at h
  | cons s rest ih =>
    intro prios hmem
    rw [mxGo_cons]
    rcases List.mem_cons.mp hmem with he | he
    · subst he
      rw [if_pos hshort]
      exact List.mem_cons_self _ _
    · split
      · exact List.mem_cons_of_mem _ (ih prios he)
      · refine List.mem_append_right _ (List.mem_append_right _ (ih _ he))

theorem mxGo_mem_badprio (r : DNSRecord) (hlong : ¬(mxToks r).length < 2)
    (hbad : mxBadPriority (mxPrio r) = true) :
    ∀ (rs : List DNSRecord) (prios : List (Option Int)), r ∈ rs →
      mxPriorityIssue r ⟨(mxToks r).headD []⟩ ∈ mxGo rs prios := by
  intro rs
  induction rs with
  | nil => intro prios h; simp at h
  | cons s rest ih =>
    intro prios hmem
    rw [mxGo_cons]
    rcases List.mem_cons.mp hmem with he | he
    · subst he
      rw [if_neg hlong, if_pos hbad]
      exact List.mem_append_left _ (List.mem_singleton.mpr rfl)
    · split
      · exact List.mem_cons_of_mem _ (ih prios he)
      · refine List.mem_append_right _ (List.mem_append_right _ (ih _ he))

theorem mxGo_mem_dup (r2 : DNSRecord) (hlong : ¬(mxToks r2).length < 2) :
    ∀ (rs : List DNSRecord) (prios : List (Option Int)), r2 ∈ rs →
      mxPrio r2 ∈ prios → mxDupIssue r2 (mxPrio r2) ∈ mxGo rs prios := by
  intro rs
  induction rs with
  | nil => intro prios h; simp at h
  | cons s rest ih =>
    intro prios hmem hpin
    rw [mxGo_cons]
    rcases List.mem_cons.mp hmem with he | he
    · subst he
      rw [if_neg hlong]
      refine List.mem_append_right _ (List.mem_append_left _ ?_)
      rw [if_pos (by simpa [List.contains, List.elem_iff] using hpin)]
      exact List.mem_singleton.mpr rfl
    · split
      · exact List.mem_cons_of_mem _ (ih prios he hpin)
      · refine List.mem_append_right _ (List.mem_append_right _
          (ih _ he (List.mem_append_left _ hpin)))

/-- An MX record whose data has three space-separated tokens. -/
def dsMx3tok : RecordSet :=
  [("MX", { domain := "example.com", recordType := "MX",
            records := [⟨"example.com", "MX", 3600,
              "10 mail.example.com backup.example.com"⟩],
            source := "cloudflare" })]

/-- C8 counterexample: an MX record whose data does not split into exactly a
priority and a hostname (it has three tokens), yet `validateMXRecords` emits
no issue at all — the code only rejects fewer than two tokens. -/
theorem c8_extra_token_counterexample :
    (splitOnChar ' ' ("10 mail.example.com backup.example.com" : String).data).length
      = 3 ∧
    validateMXRecords dsMx3tok = [] := by
  exact ⟨by decide, by decide⟩

/-- The claim's duplicate-priority example. -/
def dsMxDup : RecordSet :=
  [("MX", { domain := "example.com", recordType := "MX",
            records := [⟨"example.com", "MX", 3600, "10 mail.example.com"⟩,
                        ⟨"example.com", "MX", 3600, "10 mail2.example.com"⟩],
            source := "cloudflare" })]

/-- C8 (amended): `validateMXRecords` emits a critical issue for each MX
record with fewer than two space-separated tokens, and a critical issue for
each record with at least two tokens whose first token does not `parseInt`
to an integer in [0, 65535]; extra tokens beyond the first two and the
hostname token itself are never validated.  It emits a warning (type
configuration_error) for each record whose parsed priority equals the
parsed priority of an earlier at-least-two-token record.  Every issue it
emits has type configuration_error and severity critical or warning; the
claim's two-record duplicate example yields exactly one warning. -/
theorem c8_validateMXRecords_amended :
    (∀ (ds : RecordSet) (i : Issue), i ∈ validateMXRecords ds →
      i.type = "configuration_error" ∧
        (i.severity = "critical" ∨ i.severity = "warning")) ∧
    (∀ (ds : RecordSet) (qr : QueryResult) (r : DNSRecord),
      mapGet ds "MX" = some qr → r ∈ qr.records → (mxToks r).length < 2 →
      mxFormatIssue r ∈ validateMXRecords ds ∧
        (mxFormatIssue r).severity = "critical") ∧
    (∀ (ds : RecordSet) (qr : QueryResult) (r : DNSRecord),
      mapGet ds "MX" = some qr → r ∈ qr.records → ¬(mxToks r).length < 2 →
      mxBadPriority (mxPrio r) = true →
      mxPriorityIssue r ⟨(mxToks r).headD []⟩ ∈ validateMXRecords ds ∧
        (mxPriorityIssue r ⟨(mxToks r).headD []⟩).severity = "critical") ∧
    (∀ (ds : RecordSet) (qr : QueryResult) (r1 r2 : DNSRecord)
        (l1 l2 l3 : List DNSRecord),
      mapGet ds "MX" = some qr → qr.records = l1 ++ r1 :: (l2 ++ r2 :: l3) →
      ¬(mxToks r1).length < 2 → ¬(mxToks r2).length < 2 →
      mxPrio r1 = mxPrio r2 →
      mxDupIssue r2 (mxPrio r2) ∈ validateMXRecords ds ∧
        (mxDupIssue r2 (mxPrio r2)).severity = "warning" ∧
        (mxDupIssue r2 (mxPrio r2)).type = "configuration_error") ∧
    (validateMXRecords dsMxDup).map (fun i => (i.severity, i.type)) =
      [("warning", "configuration_error")] := by
  have hunfold : ∀ (ds : RecordSet) (qr : QueryResult), mapGet ds "MX" = some qr →
      validateMXRecords ds =
        if qr.records.isEmpty then [] else mxGo qr.records [] := by
    intro ds qr hq
    rw [validateMXRecords, hq]
  refine ⟨?_, ?_, ?_, ?_, by decide⟩
  · intro ds i h
    rw [validateMXRecords] at h
    split at h
    · simp at h
    · split at h
      · simp at h
      · exact mxGo_mem _ _ i h
  · intro ds qr r hq hr hshort
    have hne : qr.records ≠ [] := List.ne_nil_of_mem hr
    rw [hunfold ds qr hq, if_neg (by simp [List.isEmpty_iff, hne])]
    exact ⟨mxGo_mem_format r hshort qr.records [] hr, rfl⟩
  · intro ds qr r hq hr hlong hbad
    have hne : qr.records ≠ [] := List.ne_nil_of_mem hr
    rw [hunfold ds qr hq, if_neg (by simp [List.isEmpty_iff, hne])]
    exact ⟨mxGo_mem_badprio r hlong hbad qr.records [] hr, rfl⟩
  · intro ds qr r1 r2 l1 l2 l3 hq hrec hlong1 hlong2 hpp
    have hne : qr.records ≠ [] := by
      rw [hrec]
      simp
    rw [hunfold ds qr hq, if_neg (by simp [List.isEmpty_iff, hne]), hrec,
      mxGo_append _ l1 [], mxGo_cons, if_neg hlong1]
    refine ⟨List.mem_append_right _ (List.mem_append_right _
      (List.mem_append_right _ ?_)), rfl, rfl⟩
    refine mxGo_mem_dup r2 hlong2 _ _ ?_ ?_
    · exact List.mem_append_right _ (List.mem_cons_self _ _)
    · rw [← hpp]
      exact List.mem_append_right _ (List.mem_cons_self _ _)

/-! ### SPF lemmas (C9) -/

theorem listIncludes_iff_substring :
    ∀ (hay needle : List Char), listIncludes needle hay = true ↔ needle <:+: hay := by
  intro hay
  induction hay with
  | nil =>
    intro needle
    show needle.isEmpty = true ↔ _
    simp [List.isEmpty_iff]
  | cons c rest ih =>
    intro needle
    show (needle.isPrefixOf (c :: rest) || listIncludes needle rest) = true ↔ _
    rw [Bool.or_eq_true, List.isPrefixOf_iff_prefix, ih, List.infix_cons_iff]

theorem listIncludes_cons_subsumes (c : Char) (n hay : List Char)
    (h : listIncludes (c :: n) hay = true) : listIncludes n hay = true := by
  rw [listIncludes_iff_substring] at h ⊢
  exact ((List.suffix_cons c n).isInfix).trans h

/-- The terminator check of `validateSPFRecord` collapses to a bare `all`
substring check: any string containing `~all`, `-all` or `?all` contains
`all`. -/
theorem spf_hasTerm_eq (s : String) :
    (strIncludes s "all" || strIncludes s "~all" ||
      strIncludes s "-all" || strIncludes s "?all") = strIncludes s "all" := by
  cases h : strIncludes s "all" with
  | true => simp [h]
  | false =>
    have h1 : strIncludes s "~all" = false := by
      by_contra hc
      rw [Bool.not_eq_false] at hc
      have := listIncludes_cons_subsumes '~' _ _ hc
      rw [strIncludes] at h
      rw [this] at h
      simp at h
    have h2 : strIncludes s "-all" = false := by
      by_contra hc
      rw [Bool.not_eq_false] at hc
      have := listIncludes_cons_subsumes '-' _ _ hc
      rw [strIncludes] at h
      rw [this] at h
      simp at h
    have h3 : strIncludes s "?all" = false := by
      by_contra hc
      rw [Bool.not_eq_false] at hc
      have := listIncludes_cons_subsumes '?' _ _ hc
      rw [strIncludes] at h
      rw [this] at h
      simp at h
    simp [h, h1, h2, h3]

theorem infix_dropWhile_of_head (p : Char → Bool) (h : Char) (t cs : List Char)
    (hh : p h = false) (hinf : (h :: t) <:+: cs) :
    (h :: t) <:+: cs.dropWhile p := by
  obtain ⟨pre, post, hEq⟩ := hinf
  subst hEq
  rw [List.append_assoc, List.dropWhile_append]
  split
  · rw [List.cons_append, List.dropWhile_cons, if_neg (by simp [hh])]
    rw [← List.cons_append]
    exact ⟨[], post, by simp⟩
  · exact ⟨List.dropWhile p pre, post, by simp⟩

theorem trim_preserves_incl (n cs : List Char) (hFirst hLast : Char)
    (hh : n.head? = some hFirst) (hwh : isJsWhitespace hFirst = false)
    (hl : n.getLast? = some hLast) (hwl : isJsWhitespace hLast = false)
    (h : listIncludes n cs = true) : listIncludes n (trimList cs) = true := by
  rw [listIncludes_iff_substring] at h ⊢
  cases n with
  | nil => simp at hh
  | cons a t =>
    have ha : a = hFirst := by simpa using hh
    have hwa : isJsWhitespace a = false := by rw [ha]; exact hwh
    have step1 : (a :: t) <:+: cs.dropWhile isJsWhitespace :=
      infix_dropWhile_of_head isJsWhitespace a t cs hwa h
    have step2 : (a :: t).reverse <:+: (cs.dropWhile isJsWhitespace).reverse :=
      List.reverse_infix.mpr step1
    cases hrev : (a :: t).reverse with
    | nil => simp at hrev
    | cons rh rt =>
      rw [hrev] at step2
      have hrh : rh = hLast := by
        have hx : (a :: t).reverse.head? = some hLast := by
          rw [List.head?_reverse]
          exact hl
        rw [hrev] at hx
        simpa using hx
      have hwr : isJsWhitespace rh = false := by rw [hrh]; exact hwl
      have step3 : (rh :: rt) <:+:
          ((cs.dropWhile isJsWhitespace).reverse).dropWhile isJsWhitespace :=
        infix_dropWhile_of_head isJsWhitespace rh rt _ hwr step2
      have step4 : (rh :: rt).reverse <:+:
          (((cs.dropWhile isJsWhitespace).reverse).dropWhile isJsWhitespace).reverse :=
        List.reverse_infix.mpr step3
      rw [← hrev, List.reverse_reverse] at step4
      exact step4

/-- Case-insensitive SPF detection survives the `trim()` in
`validateSPFRecord`'s normalization. -/
theorem strIncludes_trim_spf (s : String) (h : strIncludes s "v=spf1" = true) :
    strIncludes (jsTrim s) "v=spf1" = true := by
  rw [strIncludes] at h ⊢
  exact trim_preserves_incl _ _ 'v' '1' rfl (by decide) (by decide) (by decide) h

theorem mem_ite_single {c : Prop} [Decidable c] {i x : Issue}
    (h : i ∈ if c then [x] else []) : i = x ∧ c := by
  split at h
  · exact ⟨List.mem_singleton.mp h, by assumption⟩
  · simp at h

/-- A TXT record that carries `v=spf1` and no `all` mechanism, but whose
data contains the letters `all` inside a hostname. -/
def dsSpfBallpark : RecordSet :=
  [("TXT", { domain := "example.com", recordType := "TXT",
             records := [⟨"example.com", "TXT", 3600,
               "v=spf1 include:ballpark.example.com"⟩],
             source := "cloudflare" })]

/-- C9 counterexample: the SPF record `v=spf1 include:ballpark.example.com`
has no terminating all, ~all, -all or ?all mechanism (no space-separated token is
one), yet SPF validation emits no warning at all: the code only checks for
the substring `all`, which occurs inside `ballpark`. -/
theorem c9_terminator_counterexample :
    strIncludes (jsToLower "v=spf1 include:ballpark.example.com") "v=spf1" = true ∧
    (splitOnChar ' ' ("v=spf1 include:ballpark.example.com" : String).data).all
      (fun tok => !(tok = "all".data || tok = "~all".data ||
        tok = "-all".data || tok = "?all".data)) = true ∧
    (validateSecurityRecords dsSpfBallpark "example.com").all
      (fun i => !(i.severity == "warning")) = true := by
  exact ⟨by decide, by decide, by decide⟩

/-- A TXT record with 11 lookup mechanisms. -/
def dsSpfLookup11 : RecordSet :=
  [("TXT", { domain := "example.com", recordType := "TXT",
             records := [⟨"example.com", "TXT", 3600,
               "v=spf1 include:a1.com include:a2.com include:a3.com include:a4.com include:a5.com include:a6.com include:a7.com include:a8.com include:a9.com include:a10.com include:a11.com ~all"⟩],
             source := "cloudflare" })]

/-- Two SPF-bearing TXT records. -/
def dsSpfTwo : RecordSet :=
  [("TXT", { domain := "example.com", recordType := "TXT",
             records := [⟨"example.com", "TXT", 3600,
                           "v=spf1 include:_spf.google.com ~all"⟩,
                         ⟨"example.com", "TXT", 3600,
                           "v=spf1 include:mailgun.org ~all"⟩],
             source := "cloudflare" })]

/-- C9 (amended): for a TXT record, SPF validation emits its warning exactly
when the record's data does not contain the substring `all` anywhere (the
check is substring containment, not a terminating mechanism); for a record
containing `v=spf1` (case-insensitive) it emits a critical issue exactly
when the lookup-mechanism count exceeds 10; and more than one SPF-bearing
TXT record yields a critical RFC-violation issue of type
configuration_error.  The last conjuncts run a record with 11 lookup
mechanisms and a record set with two SPF records. -/
theorem c9_spf_validation_amended :
    (∀ r : DNSRecord,
      (∃ i ∈ validateSPFRecord r, i.severity = "warning") ↔
        strIncludes r.data "all" = false) ∧
    (∀ r : DNSRecord, strIncludes (jsToLower r.data) "v=spf1" = true →
      ((∃ i ∈ validateSPFRecord r, i.severity = "critical") ↔
        spfLookupCount r.data > 10)) ∧
    (∀ (ds : RecordSet) (qr : QueryResult) (domain : String),
      mapGet ds "TXT" = some qr → (spfRecordsOf qr.records).length > 1 →
      multiSpfIssue (spfRecordsOf qr.records).length ∈
          validateSecurityRecords ds domain ∧
        (multiSpfIssue (spfRecordsOf qr.records).length).severity = "critical" ∧
        (multiSpfIssue (spfRecordsOf qr.records).length).type =
          "configuration_error") ∧
    (validateSecurityRecords dsSpfLookup11 "example.com").any
      (fun i => i.severity == "critical") = true ∧
    (validateSecurityRecords dsSpfTwo "example.com").any
      (fun i => i.message == "Multiple SPF records found (2)") = true := by
  refine ⟨?_, ?_, ?_, by decide, by decide⟩
  · intro r
    rw [validateSPFRecord, spf_hasTerm_eq]
    constructor
    · intro ⟨i, hi, hsev⟩
      rcases List.mem_append.mp hi with hAB | hC
      · rcases List.mem_append.mp hAB with hA | hB
        · obtain ⟨rfl, _⟩ := mem_ite_single hA
          exact absurd hsev (by simp [spfFormatIssue])
        · obtain ⟨rfl, hcond⟩ := mem_ite_single hB
          simpa using hcond
      · obtain ⟨rfl, _⟩ := mem_ite_single hC
        exact absurd hsev (by simp [spfLookupIssue])
    · intro hall
      refine ⟨spfTermIssue r, ?_, rfl⟩
      refine List.mem_append_left _ (List.mem_append_right _ ?_)
      rw [if_pos (by simp [hall])]
      exact List.mem_singleton.mpr rfl
  · intro r hspf
    have htrim : strIncludes (jsTrim (jsToLower r.data)) "v=spf1" = true :=
      strIncludes_trim_spf _ hspf
    rw [validateSPFRecord]
    have hA : (if !(strIncludes (jsTrim (jsToLower r.data)) "v=spf1") then
        [spfFormatIssue r] else []) = [] := by
      rw [if_neg (by simp [htrim])]
    rw [hA, List.nil_append]
    constructor
    · intro ⟨i, hi, hsev⟩
      rcases List.mem_append.mp hi with hB | hC
      · obtain ⟨rfl, _⟩ := mem_ite_single hB
        exact absurd hsev (by simp [spfTermIssue])
      · obtain ⟨rfl, hcond⟩ := mem_ite_single hC
        exact hcond
    · intro hcount
      refine ⟨spfLookupIssue r, ?_, rfl⟩
      refine List.mem_append_right _ ?_
      rw [if_pos hcount]
      exact List.mem_singleton.mpr rfl
  · intro ds qr domain hq hlen
    have hne : qr.records ≠ [] := by
      intro hnil
      rw [hnil] at hlen
      simp [spfRecordsOf] at hlen
    have hrw : validateSecurityRecords ds domain =
        (if (spfRecordsOf qr.records).isEmpty then [noSpfIssue]
         else (spfRecordsOf qr.records).flatMap validateSPFRecord ++
           (if (spfRecordsOf qr.records).length > 1 then
             [multiSpfIssue (spfRecordsOf qr.records).length] else [])) ++
        (if (qr.records.filter
            (fun r => strIncludes (jsToLower r.data) "v=dmarc1")).isEmpty then
          [dmarcNoteIssue domain]
         else (qr.records.filter
            (fun r => strIncludes (jsToLower r.data) "v=dmarc1")).flatMap
              validateDMARCRecord) ++
        (if !(qr.records.filter
            (fun r => strIncludes (jsToLower r.name) "_domainkey" ||
              strIncludes (jsToLower r.data) "v=dkim1")).isEmpty then
          (qr.records.filter
            (fun r => strIncludes (jsToLower r.name) "_domainkey" ||
              strIncludes (jsToLower r.data) "v=dkim1")).flatMap validateDKIMRecord
         else if (qr.records.filter
            (fun r => strIncludes (jsToLower r.name) "_domainkey")).isEmpty then
          [dkimNoteIssue]
         else []) ++
        (if !(spfRecordsOf qr.records).isEmpty ∧
            !(qr.records.filter
              (fun r => strIncludes (jsToLower r.data) "v=dmarc1")).isEmpty ∧
            !(qr.records.filter
              (fun r => strIncludes (jsToLower r.name) "_domainkey" ||
                strIncludes (jsToLower r.data) "v=dkim1")).isEmpty then
          [completeIssue]
         else []) := by
      simp only [validateSecurityRecords, hq]
      rw [if_neg (show ¬(qr.records.isEmpty = true) from by
        simp [List.isEmpty_iff, hne])]
    refine ⟨?_, rfl, rfl⟩
    rw [hrw]
    refine List.mem_append_left _ (List.mem_append_left _
      (List.mem_append_left _ ?_))
    rw [if_neg (show ¬((spfRecordsOf qr.records).isEmpty = true) from by
      intro hc
      rw [List.isEmpty_iff] at hc
      rw [hc] at hlen
      simp at hlen)]
    refine List.mem_append_right _ ?_
    rw [if_pos hlen]
    exact List.mem_singleton.mpr rfl

/-! ### Report-consistency lemmas (C10) -/

/-- The three severities the detector's rules ever assign. -/
def sevOk (i : Issue) : Prop :=
  i.severity = "critical" ∨ i.severity = "warning" ∨ i.severity = "info"

theorem sev_detectMissingRecords (ds : RecordSet) (d : String) :
    ∀ i ∈ detectMissingRecords ds d, sevOk i := by
  intro i hi
  simp only [detectMissingRecords] at hi
  rcases List.mem_append.mp hi with h | h
  · rcases List.mem_append.mp h with h | h
    · obtain ⟨rfl, _⟩ := mem_ite_single h
      exact Or.inl rfl
    · obtain ⟨rfl, _⟩ := mem_ite_single h
      exact Or.inl rfl
  · rcases List.mem_append.mp h with h | h
    · split at h
      · simp at h
      · split at h
        · rw [List.mem_singleton] at h
          subst h
          exact Or.inr (Or.inl rfl)
        · split at h
          · rw [List.mem_singleton] at h
            subst h
            exact Or.inr (Or.inr rfl)
          · simp at h
    · obtain ⟨rfl, _⟩ := mem_ite_single h
      exact Or.inr (Or.inl rfl)

theorem sev_ttlIssuesFor (rt : String) (r : DNSRecord) :
    ∀ i ∈ ttlIssuesFor rt r, sevOk i := by
  intro i hi
  rw [ttlIssuesFor] at hi
  rcases List.mem_append.mp hi with h | h
  · split at h
    · rw [List.mem_singleton] at h
      subst h
      exact Or.inr (Or.inl rfl)
    · split at h
      · rw [List.mem_singleton] at h
        subst h
        exact Or.inr (Or.inr rfl)
      · simp at h
  · obtain ⟨rfl, _⟩ := mem_ite_single h
    exact Or.inr (Or.inr rfl)

theorem sev_analyzeTTL (ds : RecordSet) : ∀ i ∈ analyzeTTL ds, sevOk i := by
  intro i hi
  rw [analyzeTTL] at hi
  obtain ⟨p, _, hp⟩ := List.mem_flatMap.mp hi
  split at hp
  · simp at hp
  · obtain ⟨r, _, hr⟩ := List.mem_flatMap.mp hp
    exact sev_ttlIssuesFor p.1 r i hr

theorem sev_detectCircularCNAME (ds : RecordSet) (d : String) :
    ∀ i ∈ detectCircularCNAME ds d, sevOk i := by
  intro i hi
  rw [detectCircularCNAME] at hi
  split at hi
  · simp at hi
  · split at hi
    · simp at hi
    · obtain ⟨r, _, hr⟩ := List.mem_flatMap.mp hi
      exact Or.inl (cnameIssuesFor_mem _ r i hr).1

theorem sev_validateMXRecords (ds : RecordSet) :
    ∀ i ∈ validateMXRecords ds, sevOk i := by
  intro i hi
  rw [validateMXRecords] at hi
  split at hi
  · simp at hi
  · split at hi
    · simp at hi
    · rcases (mxGo_mem _ _ i hi).2 with h | h
      · exact Or.inl h
      · exact Or.inr (Or.inl h)

theorem sev_validateSPFRecord (r : DNSRecord) :
    ∀ i ∈ validateSPFRecord r, sevOk i := by
  intro i hi
  rw [validateSPFRecord] at hi
  rcases List.mem_append.mp hi with h | h
  · rcases List.mem_append.mp h with h | h
    · obtain ⟨rfl, _⟩ := mem_ite_single h
      exact Or.inl rfl
    · obtain ⟨rfl, _⟩ := mem_ite_single h
      exact Or.inr (Or.inl rfl)
  · obtain ⟨rfl, _⟩ := mem_ite_single h
    exact Or.inl rfl

theorem sev_validateDMARCRecord (r : DNSRecord) :
    ∀ i ∈ validateDMARCRecord r, sevOk i := by
  intro i hi
  simp only [validateDMARCRecord] at hi
  rcases List.mem_append.mp hi with h | h
  · rcases List.mem_append.mp h with h | h
    · rcases List.mem_append.mp h with h | h
      · obtain ⟨rfl, _⟩ := mem_ite_single h
        exact Or.inl rfl
      · obtain ⟨rfl, _⟩ := mem_ite_single h
        exact Or.inl rfl
    · obtain ⟨rfl, _⟩ := mem_ite_single h
      exact Or.inr (Or.inr rfl)
  · obtain ⟨rfl, _⟩ := mem_ite_single h
    exact Or.inr (Or.inl rfl)

theorem sev_validateDKIMRecord (r : DNSRecord) :
    ∀ i ∈ validateDKIMRecord r, sevOk i := by
  intro i hi
  simp only [validateDKIMRecord] at hi
  rcases List.mem_append.mp hi with h | h
  · obtain ⟨rfl, _⟩ := mem_ite_single h
    exact Or.inl rfl
  · rcases hp : kvGet (parsePairs r.data) "p" with _ | p
    · simp only [hp] at h
      rw [List.mem_singleton] at h
      subst h
      exact Or.inl rfl
    · simp only [hp] at h
      split at h
      · rw [List.mem_singleton] at h
        subst h
        exact Or.inr (Or.inl rfl)
      · simp at h

theorem sev_validateSecurityRecords (ds : RecordSet) (d : String) :
    ∀ i ∈ validateSecurityRecords ds d, sevOk i := by
  intro i hi
  rcases hq : mapGet ds "TXT" with _ | qr
  · simp only [validateSecurityRecords, hq] at hi
    rw [List.mem_singleton] at hi
    subst hi
    exact Or.inr (Or.inl rfl)
  · simp only [validateSecurityRecords, hq] at hi
    split at hi
    · rw [List.mem_singleton] at hi
      subst hi
      exact Or.inr (Or.inl rfl)
    · rcases List.mem_append.mp hi with h | h
      · rcases List.mem_append.mp h with h | h
        · rcases List.mem_append.mp h with h | h
          · split at h
            · rw [List.mem_singleton] at h
              subst h
              exact Or.inr (Or.inl rfl)
            · rcases List.mem_append.mp h with h | h
              · obtain ⟨r, _, hr⟩ := List.mem_flatMap.mp h
                exact sev_validateSPFRecord r i hr
              · obtain ⟨rfl, _⟩ := mem_ite_single h
                exact Or.inl rfl
          · split at h
            · rw [List.mem_singleton] at h
              subst h
              exact Or.inr (Or.inr rfl)
            · obtain ⟨r, _, hr⟩ := List.mem_flatMap.mp h
              exact sev_validateDMARCRecord r i hr
        · split at h
          · obtain ⟨r, _, hr⟩ := List.mem_flatMap.mp h
            exact sev_validateDKIMRecord r i hr
          · split at h
            · rw [List.mem_singleton] at h
              subst h
              exact Or.inr (Or.inr rfl)
            · simp at h
      · obtain ⟨rfl, _⟩ := mem_ite_single h
        exact Or.inr (Or.inr rfl)

theorem sev_allIssuesOf (ds : RecordSet) (d : String) :
    ∀ i ∈ allIssuesOf ds d, sevOk i := by
  intro i hi
  rw [allIssuesOf] at hi
  rcases List.mem_append.mp hi with h | h
  · rcases List.mem_append.mp h with h | h
    · rcases List.mem_append.mp h with h | h
      · rcases List.mem_append.mp h with h | h
        · exact sev_detectMissingRecords ds d i h
        · exact sev_analyzeTTL ds i h
      · exact sev_detectCircularCNAME ds d i h
    · exact sev_validateMXRecords ds i h
  · exact sev_validateSecurityRecords ds d i h

theorem categorize_cons (i : Issue) (rest : List Issue) :
    categorize (i :: rest) =
      if i.severity = "critical" then
        ⟨i :: (categorize rest).errors, (categorize rest).warnings,
          (categorize rest).info, (categorize rest).crit + 1,
          (categorize rest).warn, (categorize rest).inf⟩
      else if i.severity = "warning" then
        ⟨(categorize rest).errors, i :: (categorize rest).warnings,
          (categorize rest).info, (categorize rest).crit,
          (categorize rest).warn + 1, (categorize rest).inf⟩
      else if i.severity = "info" then
        ⟨(categorize rest).errors, (categorize rest).warnings,
          i :: (categorize rest).info, (categorize rest).crit,
          (categorize rest).warn, (categorize rest).inf + 1⟩
      else categorize rest := by
  rw [categorize]

theorem categorize_spec : ∀ l : List Issue,
    (categorize l).crit = (categorize l).errors.length ∧
    (categorize l).warn = (categorize l).warnings.length ∧
    (categorize l).inf = (categorize l).info.length ∧
    (∀ i ∈ (categorize l).errors, i.severity = "critical") ∧
    (∀ i ∈ (categorize l).warnings, i.severity = "warning") ∧
    (∀ i ∈ (categorize l).info, i.severity = "info") ∧
    ((∀ i ∈ l, sevOk i) →
      (categorize l).errors.length + (categorize l).warnings.length +
        (categorize l).info.length = l.length) := by
  intro l
  induction l with
  | nil => simp [categorize]
  | cons i rest ih =>
    obtain ⟨h1, h2, h3, h4, h5, h6, h7⟩ := ih
    rw [categorize_cons]
    by_cases hc : i.severity = "critical"
    · rw [if_pos hc]
      refine ⟨by simp [h1], h2, h3, ?_, h5, h6, ?_⟩
      · intro j hj
        rcases List.mem_cons.mp hj with hj | hj
        · subst hj; exact hc
        · exact h4 j hj
      · intro hall
        have := h7 (fun j hj => hall j (List.mem_cons_of_mem i hj))
        simp only [List.length_cons]
        omega
    · rw [if_neg hc]
      by_cases hw : i.severity = "warning"
      · rw [if_pos hw]
        refine ⟨h1, by simp [h2], h3, h4, ?_, h6, ?_⟩
        · intro j hj
          rcases List.mem_cons.mp hj with hj | hj
          · subst hj; exact hw
          · exact h5 j hj
        · intro hall
          have := h7 (fun j hj => hall j (List.mem_cons_of_mem i hj))
          simp only [List.length_cons]
          omega
      · rw [if_neg hw]
        by_cases hf : i.severity = "info"
        · rw [if_pos hf]
          refine ⟨h1, h2, by simp [h3], h4, h5, ?_, ?_⟩
          · intro j hj
            rcases List.mem_cons.mp hj with hj | hj
            · subst hj; exact hf
            · exact h6 j hj
          · intro hall
            have := h7 (fun j hj => hall j (List.mem_cons_of_mem i hj))
            simp only [List.length_cons]
            omega
        · rw [if_neg hf]
          refine ⟨h1, h2, h3, h4, h5, h6, ?_⟩
          intro hall
          exfalso
          rcases hall i (List.mem_cons_self i rest) with h | h | h
          · exact hc h
          · exact hw h
          · exact hf h

/-- C10: `analyzeConfiguration`'s report is internally consistent: each
summary counter equals the length of the matching sequence, `totalIssues`
is their sum, and every issue sits in the sequence matching its severity. -/
theorem c10_analyzeConfiguration_consistent :
    ∀ (ds : RecordSet) (domain : String),
      (analyzeConfiguration ds domain).summary.criticalErrors =
        (analyzeConfiguration ds domain).errors.length ∧
      (analyzeConfiguration ds domain).summary.warnings =
        (analyzeConfiguration ds domain).warnings.length ∧
      (analyzeConfiguration ds domain).summary.infoItems =
        (analyzeConfiguration ds domain).info.length ∧
      (analyzeConfiguration ds domain).summary.totalIssues =
        (analyzeConfiguration ds domain).errors.length +
          (analyzeConfiguration ds domain).warnings.length +
          (analyzeConfiguration ds domain).info.length ∧
      (∀ i ∈ (analyzeConfiguration ds domain).errors, i.severity = "critical") ∧
      (∀ i ∈ (analyzeConfiguration ds domain).warnings, i.severity = "warning") ∧
      (∀ i ∈ (analyzeConfiguration ds domain).info, i.severity = "info") := by
  intro ds domain
  obtain ⟨h1, h2, h3, h4, h5, h6, h7⟩ := categorize_spec (allIssuesOf ds domain)
  have htot := h7 (sev_allIssuesOf ds domain)
  simp only [analyzeConfiguration]
  exact ⟨h1, h2, h3, htot.symm, h4, h5, h6⟩

end DNSCheck
